import Mathlib

/-!
Verification of the speedKG ingestion pipeline (schema validation, SPEED CSV
parsing, CAMEO ontology parsing, and the two-pass Neo4j graph load).

The Python sources are shallowly embedded: pure helpers become Lean
functions, the Neo4j store becomes an explicit graph state acted on by the
Cypher statements the loader issues, and Python exceptions become Except
values.  Machine integers are modelled as Nat/Int with explicit reduction
modulo 2^32 where the MD5 hash requires it.
-/

set_option maxRecDepth 10000

namespace SpeedKG

/-! ### Python string primitives

Models of the CPython `str` operations used by the sources.  `str.lower`
and `str.upper` are modelled on the ASCII range (all data flowing through
the pipeline's normalisation is ASCII); `str.strip` uses the ASCII
whitespace class.
-/

/-- Whitespace test mirroring what `str.strip()` removes (ASCII part:
space, tab, newline, carriage return, vertical tab, form feed). -/
def pyIsSpace (c : Char) : Bool :=
  c.toNat ∈ [32, 9, 10, 13, 11, 12]

/-- Lower-case one character (ASCII model of `str.lower`): shift the
range A-Z (codes 65-90) up by 32. -/
def pyLowerChar (c : Char) : Char :=
  if 65 ≤ c.toNat && c.toNat ≤ 90 then Char.ofNat (c.toNat + 32) else c

/-- Upper-case one character (ASCII model of `str.upper`): shift the
range a-z (codes 97-122) down by 32. -/
def pyUpperChar (c : Char) : Char :=
  if 97 ≤ c.toNat && c.toNat ≤ 122 then Char.ofNat (c.toNat - 32) else c

/-- Model of `str.lower`. -/
def pyLower (s : String) : String := ⟨s.data.map pyLowerChar⟩

/-- Model of `str.upper`. -/
def pyUpper (s : String) : String := ⟨s.data.map pyUpperChar⟩

/-- Strip on a character list: drop leading and trailing whitespace. -/
def pyStripList (l : List Char) : List Char :=
  ((l.dropWhile pyIsSpace).reverse.dropWhile pyIsSpace).reverse

/-- Model of `str.strip()`. -/
def pyStrip (s : String) : String := ⟨pyStripList s.data⟩

/-- Python truthiness of an optional string (`None` and `""` are falsy). -/
def strTruthy : Option String → Bool
  | none => false
  | some s => s ≠ ""

/-- Python truthiness of an optional int (`None` and `0` are falsy). -/
def intTruthy : Option Int → Bool
  | none => false
  | some n => n ≠ 0

/-- Python `a or b` on optional strings: keep `a` when truthy, else `b`. -/
def pyOrStr (a b : Option String) : Option String :=
  if strTruthy a then a else b

/-! ### UTF-8 encoding

Model of `str.encode('utf-8')`: the byte list of a string. -/

/-- UTF-8 bytes of one character. -/
def utf8Char (c : Char) : List Nat :=
  let n := c.toNat
  if n < 128 then [n]
  else if n < 2048 then [192 + n / 64, 128 + n % 64]
  else if n < 65536 then [224 + n / 4096, 128 + (n / 64) % 64, 128 + n % 64]
  else [240 + n / 262144, 128 + (n / 4096) % 64, 128 + (n / 64) % 64, 128 + n % 64]

/-- UTF-8 bytes of a string. -/
def utf8 (s : String) : List Nat := (s.data.map utf8Char).join

/-! ### MD5

Executable MD5 (RFC 1321) over byte lists, used by `generate_actor_id`
(src/domain/actors.py) and `_generate_location_id`
(src/ingestion/neo4j_loader.py) through `hashlib.md5(...).hexdigest()`.
32-bit words are Nat values reduced modulo 2^32.
-/

/-- Reduce to a 32-bit word. -/
def w32 (n : Nat) : Nat := n % 4294967296

/-- 32-bit addition. -/
def wadd (a b : Nat) : Nat := w32 (a + b)

/-- 32-bit bitwise complement (for values below 2^32). -/
def wnot (a : Nat) : Nat := 4294967295 - a

/-- Rotate a 32-bit word left by `n` bits. -/
def rotl (x n : Nat) : Nat := w32 (x <<< n) ||| (x >>> (32 - n))

/-- Per-round sine-derived constants of MD5. -/
def md5K : List Nat :=
  [0xd76aa478, 0xe8c7b756, 0x242070db, 0xc1bdceee,
   0xf57c0faf, 0x4787c62a, 0xa8304613, 0xfd469501,
   0x698098d8, 0x8b44f7af, 0xffff5bb1, 0x895cd7be,
   0x6b901122, 0xfd987193, 0xa679438e, 0x49b40821,
   0xf61e2562, 0xc040b340, 0x265e5a51, 0xe9b6c7aa,
   0xd62f105d, 0x02441453, 0xd8a1e681, 0xe7d3fbc8,
   0x21e1cde6, 0xc33707d6, 0xf4d50d87, 0x455a14ed,
   0xa9e3e905, 0xfcefa3f8, 0x676f02d9, 0x8d2a4c8a,
   0xfffa3942, 0x8771f681, 0x6d9d6122, 0xfde5380c,
   0xa4beea44, 0x4bdecfa9, 0xf6bb4b60, 0xbebfbc70,
   0x289b7ec6, 0xeaa127fa, 0xd4ef3085, 0x04881d05,
   0xd9d4d039, 0xe6db99e5, 0x1fa27cf8, 0xc4ac5665,
   0xf4292244, 0x432aff97, 0xab9423a7, 0xfc93a039,
   0x655b59c3, 0x8f0ccc92, 0xffeff47d, 0x85845dd1,
   0x6fa87e4f, 0xfe2ce6e0, 0xa3014314, 0x4e0811a1,
   0xf7537e82, 0xbd3af235, 0x2ad7d2bb, 0xeb86d391]

/-- Per-round left-rotation amounts of MD5. -/
def md5S : List Nat :=
  [7, 12, 17, 22, 7, 12, 17, 22, 7, 12, 17, 22, 7, 12, 17, 22,
   5, 9, 14, 20, 5, 9, 14, 20, 5, 9, 14, 20, 5, 9, 14, 20,
   4, 11, 16, 23, 4, 11, 16, 23, 4, 11, 16, 23, 4, 11, 16, 23,
   6, 10, 15, 21, 6, 10, 15, 21, 6, 10, 15, 21, 6, 10, 15, 21]

/-- Little-endian 32-bit word number `j` of a 64-byte chunk. -/
def leWord (chunk : List Nat) (j : Nat) : Nat :=
  chunk.getD (4 * j) 0 + 256 * chunk.getD (4 * j + 1) 0 +
    65536 * chunk.getD (4 * j + 2) 0 + 16777216 * chunk.getD (4 * j + 3) 0

/-- One MD5 round applied to the running `(a, b, c, d)` state. -/
def md5Round (chunk : List Nat) (st : Nat × Nat × Nat × Nat) (i : Nat) :
    Nat × Nat × Nat × Nat :=
  let (a, b, c, d) := st
  let fg : Nat × Nat :=
    if i < 16 then ((b &&& c) ||| (wnot b &&& d), i)
    else if i < 32 then ((d &&& b) ||| (wnot d &&& c), (5 * i + 1) % 16)
    else if i < 48 then (b ^^^ c ^^^ d, (3 * i + 5) % 16)
    else (c ^^^ (b ||| wnot d), (7 * i) % 16)
  let f := wadd (wadd (wadd fg.1 a) (md5K.getD i 0)) (leWord chunk fg.2)
  (d, wadd b (rotl f (md5S.getD i 0)), b, c)

/-- Process one 64-byte chunk into the accumulated state. -/
def md5Chunk (st : Nat × Nat × Nat × Nat) (chunk : List Nat) :
    Nat × Nat × Nat × Nat :=
  let (a0, b0, c0, d0) := st
  let (a, b, c, d) := (List.range 64).foldl (md5Round chunk) st
  (wadd a0 a, wadd b0 b, wadd c0 c, wadd d0 d)

/-- Little-endian byte list (length `k`) of a number. -/
def leBytes (k n : Nat) : List Nat :=
  match k with
  | 0 => []
  | k + 1 => n % 256 :: leBytes k (n / 256)

/-- MD5 padding: `0x80`, zeros to 56 mod 64, then the 64-bit bit length. -/
def md5Pad (msg : List Nat) : List Nat :=
  let z := (120 - ((msg.length + 1) % 64)) % 64
  msg ++ [128] ++ List.replicate z 0 ++ leBytes 8 (8 * msg.length)

/-- Split a byte list into 64-byte chunks (the fuel, at least the list
length, makes the recursion structural). -/
def chunksGo : Nat → List Nat → List (List Nat)
  | 0, _ => []
  | _ + 1, [] => []
  | fuel + 1, l => l.take 64 :: chunksGo fuel (l.drop 64)

/-- Split a byte list into 64-byte chunks. -/
def chunks64 (l : List Nat) : List (List Nat) := chunksGo l.length l

/-- MD5 digest: 16 bytes, the four state words little-endian. -/
def md5 (msg : List Nat) : List Nat :=
  let st :=
    (chunks64 (md5Pad msg)).foldl md5Chunk
      (0x67452301, 0xefcdab89, 0x98badcfe, 0x10325476)
  leBytes 4 st.1 ++ leBytes 4 st.2.1 ++ leBytes 4 st.2.2.1 ++ leBytes 4 st.2.2.2

/-- Lower-case hexadecimal digits 0-9, a-f (by character code). -/
def hexDigits : List Char :=
  (List.range 16).map (fun n => if n < 10 then Char.ofNat (48 + n) else Char.ofNat (87 + n))

/-- Hex digit for a value below 16. -/
def hexChar (n : Nat) : Char := hexDigits.getD n '0'

/-- Two hex characters of one byte. -/
def byteHex (b : Nat) : List Char := [hexChar (b / 16), hexChar (b % 16)]

/-- Model of `hashlib.md5(bytes).hexdigest()`: 32 lower-case hex chars. -/
def md5HexChars (msg : List Nat) : List Char := ((md5 msg).map byteHex).join

/-! ### Actor ids (src/domain/actors.py) -/

/-- Normalisation inside `generate_actor_id`: `actor_name.lower().strip()`. -/
def pyNormName (s : String) : String := pyStrip (pyLower s)

/-- Model of `generate_actor_id` (src/domain/actors.py, lines 15-37):
empty name gives the sentinel id, otherwise ACTOR_ followed by the first
12 hex characters of the MD5 of the normalised name, upper-cased. -/
def generate_actor_id (actor_name : String) : String :=
  if actor_name = "" then "ACTOR_UNKNOWN"
  else
    let normalized := pyNormName actor_name
    let hash_value : String :=
      ⟨((md5HexChars (utf8 normalized)).take 12).map pyUpperChar⟩
    "ACTOR_" ++ hash_value

/-! ### Python float text model

`_generate_location_id` interpolates optional floats into an f-string.
`pyFloatRepr` models CPython's `str()` of a float for the plain decimal
values that occur here (sign, integer part, then the fractional digits, at
least one, capped at 17); `str(None)` is the literal `None`. -/

/-- Fractional decimal digits of `num/den` (at most `fuel` digits). -/
def fracDigits (num den : Nat) : Nat → List Nat
  | 0 => []
  | fuel + 1 =>
    if num = 0 then []
    else (num * 10) / den :: fracDigits ((num * 10) % den) den fuel

/-- Decimal text of a rational, modelling `str(float)`. -/
def pyFloatRepr (q : Rat) : String :=
  let sign := if q < 0 then "-" else ""
  let n := q.num.natAbs
  let ip := n / q.den
  let ds := fracDigits (n % q.den) q.den 17
  let ds := if ds = [] then [0] else ds
  sign ++ toString ip ++ "." ++ String.mk (ds.map (fun d => hexChar d))

/-- Text of an optional float inside an f-string (`str(None)` is `None`). -/
def pyStrOfOptFloat : Option Rat → String
  | none => "None"
  | some q => pyFloatRepr q

/-! ### Location ids (src/ingestion/neo4j_loader.py, lines 499-503) -/

/-- Model of `Neo4jLoader._generate_location_id`: lower-case the
`name_lat_lon` key, MD5 it, keep 12 hex chars upper-cased after LOC_. -/
def generate_location_id (name : String) (lat lon : Option Rat) : String :=
  let key := pyLower (name ++ "_" ++ pyStrOfOptFloat lat ++ "_" ++ pyStrOfOptFloat lon)
  "LOC_" ++ String.mk (((md5HexChars (utf8 key)).take 12).map pyUpperChar)

/-! ### Domain model (src/domain/events.py)

The dataclasses become structures; `Optional[T]` becomes `Option T`,
Python floats become Rat, `datetime.date` values become year/month/day
triples.  Property methods become functions on the structures. -/

/-- Roles an actor can play in an event. -/
inductive ActorRole where
  | initiator
  | target
  | victim
deriving DecidableEq, Repr

/-- Model of the `Actor` dataclass (an event participant). -/
structure PyActor where
  role : ActorRole
  identity_group : Option String := none
  sector_group : Option String := none
  political_group : Option String := none
  actor_type : Option Int := none
  government_type : Option Int := none
  government_level : Option Int := none
  non_gov_type : Option Int := none
  is_known : Option Int := none
  ambiguity : Option Rat := none
  human_indicator : Option Int := none
  num_participants : Option Int := none
  num_armed : Option Int := none
deriving DecidableEq, Repr

/-- Model of `Actor.primary_name`: `political_group or sector_group or
identity_group` with Python `or` (empty strings are falsy). -/
def PyActor.primary_name (a : PyActor) : Option String :=
  pyOrStr a.political_group (pyOrStr a.sector_group a.identity_group)

/-- Model of `Actor.is_government`: a positive government type code. -/
def PyActor.is_government (a : PyActor) : Bool :=
  match a.government_type with
  | none => false
  | some n => n > 0

/-- Model of `Actor.is_non_government`: a positive non-gov type code. -/
def PyActor.is_non_government (a : PyActor) : Bool :=
  match a.non_gov_type with
  | none => false
  | some n => n > 0

/-- Model of `Actor.is_human`: human indicator equal to 1. -/
def PyActor.is_human (a : PyActor) : Bool := a.human_indicator = some 1

/-- Model of the `Location` dataclass. -/
structure PyLocation where
  name : Option String := none
  country : Option String := none
  latitude : Option Rat := none
  longitude : Option Rat := none
  location_type : Option Int := none
  region : Option Int := none
  cow_code : Option Int := none
  pinpoint : Option Int := none
deriving DecidableEq, Repr

/-- Gregorian leap-year test as in `datetime`. -/
def isLeapYear (y : Int) : Bool := y % 4 = 0 && (y % 100 ≠ 0 || y % 400 = 0)

/-- Days in a month as in `datetime`. -/
def daysInMonth (y m : Int) : Int :=
  if m = 2 then (if isLeapYear y then 29 else 28)
  else if m = 4 || m = 6 || m = 9 || m = 11 then 30
  else 31

/-- Validity bounds of `datetime.date(y, m, d)`: the constructor raises
`ValueError` exactly when this is false. -/
def isValidDate (y m d : Int) : Bool :=
  1 ≤ y && y ≤ 9999 && 1 ≤ m && m ≤ 12 && 1 ≤ d && d ≤ daysInMonth y m

/-- Model of the `TemporalInfo` dataclass; `date` fields are y/m/d triples. -/
structure TemporalInfo where
  year : Option Int := none
  month : Option Int := none
  day : Option Int := none
  date_type : Option Int := none
  julian_possible_start : Option Int := none
  julian_possible_end : Option Int := none
  julian_earliest : Option Int := none
  julian_latest : Option Int := none
  julian_start_date : Option Int := none
  julian_end_date : Option Int := none
  day_span : Option Int := none
  publication_date : Option (Int × Int × Int) := none
  code_date : Option (Int × Int × Int) := none
deriving DecidableEq, Repr

/-- Model of `TemporalInfo.precision`: truthiness-ranked day, month, year
(a 0 or missing field is falsy), else unknown. -/
def TemporalInfo.precision (t : TemporalInfo) : String :=
  if intTruthy t.day then "day"
  else if intTruthy t.month then "month"
  else if intTruthy t.year then "year"
  else "unknown"

/-- Model of `TemporalInfo.calendar_date`: when year, month and day are all
truthy, build `date(y, m, d)`; the `ValueError` of an invalid combination
is caught and yields `None`. -/
def TemporalInfo.calendar_date (t : TemporalInfo) : Option (Int × Int × Int) :=
  if intTruthy t.year && intTruthy t.month && intTruthy t.day then
    match t.year, t.month, t.day with
    | some y, some m, some d => if isValidDate y m d then some (y, m, d) else none
    | _, _, _ => none
  else none

/-- Model of the `Impact` dataclass. -/
structure PyImpact where
  killed_participants : Option Int := none
  killed_armed : Option Int := none
  injured : Option Int := none
  injured_detailed : Option Int := none
  arrests : Option Int := none
  property_damaged : Option Int := none
  property_owner : Option String := none
  victim_effect : Option String := none
deriving DecidableEq, Repr

/-- Sparse property value: kept as string or coerced to int
(`_extract_properties` stores both kinds). -/
inductive PropVal where
  | s (v : String)
  | i (n : Int)
deriving DecidableEq, Repr

/-- Python dict assignment on an insertion-ordered association list:
update in place when the key exists, else append. -/
def dictSet (d : List (String × PropVal)) (k : String) (v : PropVal) :
    List (String × PropVal) :=
  if d.any (fun p => p.1 = k) then d.map (fun p => if p.1 = k then (k, v) else p)
  else d ++ [(k, v)]

/-- Model of the `Event` dataclass. -/
structure SpeedEvent where
  event_id : String
  temporal : TemporalInfo
  event_type : Option Int := none
  pe_type : Option Int := none
  atk_type : Option Int := none
  dsa_type : Option Int := none
  news_source : Option String := none
  article_id : Option String := none
  initiator : Option PyActor := none
  target : Option PyActor := none
  victim : Option PyActor := none
  location : Option PyLocation := none
  impact : Option PyImpact := none
  is_quasi_event : Bool := false
  is_state_action : Bool := false
  is_coup : Bool := false
  is_coup_failed : Bool := false
  is_linked : Bool := false
  link_type : Option Int := none
  linked_from : List String := []
  linked_to : List String := []
  is_posthoc : Bool := false
  properties : List (String × PropVal) := []
deriving DecidableEq, Repr

/-! ### SPEED CSV parser (src/ingestion/csv_parser.py)

A row is the pandas Series of one CSV record: an association list from
column name to cell, where a `none` cell is pandas NaN (the file's
sentinel values are mapped to NaN by `na_values` and re-checked by
`_safe_get`) and a `some` cell carries the cell's text (`str(value)` of
the stored value). -/

/-- One CSV row: column name to optional cell text. -/
def Row := List (String × Option String)

/-- Missing data sentinels of SPEED data (the Python list also holds
`None`, which is the `none` cell here). -/
def MISSING_VALUES : List String := [".", "", "nan", "NaN"]

/-- Model of `_safe_get`: `None` for an absent column, a NaN cell or a
sentinel value, else the stripped cell text. -/
def safe_get (row : Row) (field : String) : Option String :=
  match row.find? (fun p => p.1 = field) with
  | none => none
  | some (_, none) => none
  | some (_, some v) => if v ∈ MISSING_VALUES then none else some (pyStrip v)

/-- Numeric value of an ASCII digit list. -/
def digitsToNat (ds : List Char) : Nat :=
  ds.foldl (fun a c => a * 10 + (c.toNat - 48)) 0

/-- Model of Python `float(s)` on decimal literals: optional sign, digits
with an optional point, optional exponent; anything else is a
`ValueError`, i.e. `none`.  The value is exact here rather than rounded
to binary, and the non-finite literals (nan/inf), which no rational
represents, are modelled as unparsable. -/
def pyFloatOfString (s : String) : Option Rat :=
  let l := pyStripList s.data
  let sl : Int × List Char :=
    match l with
    | '+' :: r => (1, r)
    | '-' :: r => (-1, r)
    | r => (1, r)
  let ip := sl.2.takeWhile Char.isDigit
  let l1 := sl.2.dropWhile Char.isDigit
  let fp : List Char × List Char :=
    match l1 with
    | '.' :: r => (r.takeWhile Char.isDigit, r.dropWhile Char.isDigit)
    | r => ([], r)
  if ip = [] && fp.1 = [] then none
  else
    -- the exact value: (sign * mantissa digits) * 10^exponent / 10^(fraction length)
    let mantNum : Int := sl.1 * (digitsToNat (ip ++ fp.1) : Int)
    match fp.2 with
    | [] => some (mkRat mantNum (10 ^ fp.1.length))
    | c :: r =>
      if c = 'e' || c = 'E' then
        let es : Int × List Char :=
          match r with
          | '+' :: t => (1, t)
          | '-' :: t => (-1, t)
          | t => (1, t)
        let ed := es.2.takeWhile Char.isDigit
        if ed = [] || es.2.dropWhile Char.isDigit ≠ [] then none
        else
          let e : Int := es.1 * (digitsToNat ed : Int)
          some (mkRat (mantNum * 10 ^ e.toNat) (10 ^ fp.1.length * 10 ^ (-e).toNat))
      else none

/-- Model of Python `int(x)` on a float: truncation toward zero. -/
def pyIntOfFloatTrunc (q : Rat) : Int := q.num.tdiv (q.den : Int)

/-- Model of `_safe_int`: `int(float(value))`, `None` on failure. -/
def safe_int (row : Row) (field : String) : Option Int :=
  (safe_get row field).bind (fun v => (pyFloatOfString v).map pyIntOfFloatTrunc)

/-- Model of `_safe_float`: `float(value)`, `None` on failure. -/
def safe_float (row : Row) (field : String) : Option Rat :=
  (safe_get row field).bind pyFloatOfString

/-- Best-effort date assembly shared by the publication/coding date blocks
of `_parse_temporal`: all three parts truthy and a valid calendar date,
else `None` (the `ValueError` is swallowed). -/
def tryDate (y m d : Option Int) : Option (Int × Int × Int) :=
  if intTruthy y && intTruthy m && intTruthy d then
    match y, m, d with
    | some a, some b, some c => if isValidDate a b c then some (a, b, c) else none
    | _, _, _ => none
  else none

/-- Model of `_parse_temporal`. -/
def parse_temporal (row : Row) : TemporalInfo :=
  { year := safe_int row ("year")
    month := safe_int row ("month")
    day := safe_int row ("day")
    date_type := safe_int row ("DATE_TYP")
    julian_possible_start := safe_int row ("JUL_PSD")
    julian_possible_end := safe_int row ("JUL_PED")
    julian_earliest := safe_int row ("JUL_EED")
    julian_latest := safe_int row ("JUL_LED")
    julian_start_date := safe_int row ("JUL_START_DATE")
    julian_end_date := safe_int row ("JUL_END_DATE")
    day_span := safe_int row ("DAY_SPAN")
    publication_date :=
      tryDate (safe_int row ("PUB_YEAR")) (safe_int row ("PUB_MON")) (safe_int row ("PUB_DATE"))
    code_date :=
      tryDate (safe_int row ("CODE_YEAR")) (safe_int row ("CODE_MONTH")) (safe_int row ("CODE_DAY")) }

/-- Model of `_parse_actor` for prefix `INI`/`TAR`/`VIC`: no actor unless
one of the three group fields is truthy; initiator-specific and
human-indicator fields mirror the source's conditionals. -/
def parse_actor (row : Row) (pfx : String) (role : ActorRole) : Option PyActor :=
  let igrp := safe_get row (pfx ++ "_IGRP1")
  let sgrp := safe_get row (pfx ++ "_SGRP1")
  let pgrp := safe_get row (pfx ++ "_PGRP1")
  if !(strTruthy igrp || strTruthy sgrp || strTruthy pgrp) then none
  else
    let base : PyActor :=
      { role := role
        identity_group := igrp
        sector_group := sgrp
        political_group := pgrp
        actor_type := safe_int row (pfx ++ "_TYPE")
        government_type := safe_int row ("GOV_" ++ String.mk (pfx.data.take 1) ++ "1")
        government_level := safe_int row ("G_LVL_" ++ String.mk (pfx.data.take 1))
        non_gov_type := safe_int row ("NGOV_" ++ String.mk (pfx.data.take 1) ++ "1") }
    let withIni :=
      if pfx = "INI" then
        { base with
            is_known := safe_int row ("KNOW_INI")
            ambiguity := safe_float row ("AMBIG_INI")
            num_participants := safe_int row ("N_OF_INI_P")
            num_armed := safe_int row ("N_OF_INI_A") }
      else base
    let withHuman :=
      if pfx = "TAR" then { withIni with human_indicator := safe_int row ("HUMAN_T1") }
      else if pfx = "VIC" then { withIni with human_indicator := safe_int row ("HUMAN_V1") }
      else withIni
    some withHuman

/-- Model of `_parse_location`: no location unless GP3 or country is
truthy. -/
def parse_location (row : Row) : Option PyLocation :=
  let gp3 := safe_get row ("GP3")
  let country := safe_get row ("country")
  if !strTruthy gp3 && !strTruthy country then none
  else
    some
      { name := gp3
        country := country
        latitude := safe_float row ("GP7")
        longitude := safe_float row ("GP8")
        location_type := safe_int row ("LOC_TYPE")
        region := safe_int row ("region")
        cow_code := safe_int row ("cowcode")
        pinpoint := safe_int row ("pinpoint") }

/-- Model of `_parse_impact`: no impact unless one of the five counters is
truthy (0 is falsy). -/
def parse_impact (row : Row) : Option PyImpact :=
  let has_impact :=
    intTruthy (safe_int row ("N_KILLED_P")) || intTruthy (safe_int row ("N_KILLED_A")) ||
    intTruthy (safe_int row ("N_INJURD")) || intTruthy (safe_int row ("arrests")) ||
    intTruthy (safe_int row ("property_damaged"))
  if !has_impact then none
  else
    some
      { killed_participants := safe_int row ("N_KILLED_P")
        killed_armed := safe_int row ("N_KILLED_A")
        injured := safe_int row ("N_INJURD")
        injured_detailed := safe_int row ("N_INJURD_D")
        arrests := safe_int row ("arrests")
        property_damaged := safe_int row ("property_damaged")
        property_owner := safe_get row ("property_owner")
        victim_effect := safe_get row ("victim_effect") }

/-- Sparse string-valued fields of `_extract_properties`. -/
def sparse_fields : List String :=
  ["AD_VIOL", "AD_TACT", "weapon", "WEAP_GRD",
   "E_LENGTH", "SYM_TYPE",
   "SC_ANIMOSITY", "ANTI_GOV_SENTMNTS", "CLASS_CONFLICT",
   "POL_DESIRES", "RETAIN_POWER", "ECO_SCARCITY",
   "PERS_SECURITY", "retribution", "POL_EXPRESS",
   "MASS_EXPRESS", "POL_VIOL", "STAT_VIOL",
   "ST_REPRESS", "PUB_ORDER",
   "INTANG_REP", "recap", "AMBIG_WGT",
   "ctry_bias", "TAR_GPOL", "GP_TYPE", "GP4"]

/-- Numeric fields of `_extract_properties` that overwrite as ints. -/
def numeric_fields : List String :=
  ["N_INJURD", "N_KILLED_P", "N_KILLED_A",
   "N_OF_INI_P", "N_OF_INI_A", "WEAP_GRD", "E_LENGTH"]

/-- Model of `_extract_properties`: store each non-`None` sparse value as a
string, then each non-`None` numeric value as an int (dict assignment
keeps insertion order and overwrites in place). -/
def extract_properties (row : Row) : List (String × PropVal) :=
  let withSparse :=
    sparse_fields.foldl
      (fun d f =>
        match safe_get row f with
        | none => d
        | some v => dictSet d f (.s v)) []
  numeric_fields.foldl
    (fun d f =>
      match safe_int row f with
      | none => d
      | some n => dictSet d f (.i n)) withSparse

/-- Model of `_parse_row`: `None` when the identifier is falsy after
`_safe_get`, else the constructed Event. -/
def parse_row (row : Row) : Option SpeedEvent :=
  match safe_get row ("eventid") with
  | none => none
  | some event_id =>
    if event_id = "" then none
    else
      let is_linked := safe_int row ("linked") = some 1
      let from_eid := safe_get row ("FROM_EID")
      let to_eid := safe_get row ("TO_EID")
      some
        { event_id := event_id
          temporal := parse_temporal row
          event_type := safe_int row ("EV_TYPE")
          pe_type := safe_int row ("PE_TYPE")
          atk_type := safe_int row ("ATK_TYPE")
          dsa_type := safe_int row ("DSA_TYPE")
          news_source := safe_get row ("NEWS_SOURCE")
          article_id := safe_get row ("aid")
          initiator := parse_actor row ("INI") .initiator
          target := parse_actor row ("TAR") .target
          victim := parse_actor row ("VIC") .victim
          location := parse_location row
          impact := parse_impact row
          is_quasi_event := safe_int row ("QUASI_EVENT") = some 1
          is_state_action := safe_int row ("STAT_ACT") = some 1
          is_coup := safe_int row ("coup") = some 1
          is_coup_failed := safe_int row ("COUP_FAILED") = some 1
          is_linked := is_linked
          link_type := safe_int row ("LINK_TYPE")
          linked_from := if is_linked then (match from_eid with
            | some v => if v ≠ "" then [v] else []
            | none => []) else []
          linked_to := if is_linked then (match to_eid with
            | some v => if v ≠ "" then [v] else []
            | none => []) else []
          is_posthoc := safe_int row ("posthoc") = some 1
          properties := extract_properties row }

/-- One entry of the parser's error log (`_log_error`). -/
structure ParseError where
  row_index : Nat
  event_id : Option String
  error : String
  error_type : String
deriving DecidableEq, Repr

/-- A Python exception raised by row parsing: class name and message. -/
structure PyExc where
  ename : String
  msg : String
deriving DecidableEq, Repr

/-- Running state of `SPEEDCSVParser`: error log, counters and the events
yielded so far. -/
structure ParserState where
  errors : List ParseError := []
  parsed_count : Nat := 0
  skipped_count : Nat := 0
  yielded : List SpeedEvent := []
deriving DecidableEq, Repr

/-- One iteration of the row loop of `parse`: yield and count a parsed
event, count a skip, or log a raising row and count it as skipped. -/
def parseStep (rp : Row → Except PyExc (Option SpeedEvent))
    (st : ParserState) (ir : Nat × Row) : ParserState :=
  match rp ir.2 with
  | .ok (some e) =>
    { st with parsed_count := st.parsed_count + 1, yielded := st.yielded ++ [e] }
  | .ok none => { st with skipped_count := st.skipped_count + 1 }
  | .error ex =>
    { st with
        errors := st.errors ++
          [{ row_index := ir.1
             event_id := safe_get ir.2 ("eventid")
             error := ex.msg
             error_type := ex.ename }]
        skipped_count := st.skipped_count + 1 }

/-- The row loop of `parse` over rows with a running index, generic in
the row parser (whose Except models a raising `_parse_row`). -/
def parseLoop (rp : Row → Except PyExc (Option SpeedEvent)) :
    Nat → List Row → ParserState → ParserState
  | _, [], st => st
  | idx, r :: rest, st => parseLoop rp (idx + 1) rest (parseStep rp st (idx, r))

/-- The parser's run with the translated (total) `_parse_row`. -/
def parseStream (rows : List Row) : ParserState :=
  parseLoop (fun r => .ok (parse_row r)) 0 rows {}

/-! ### Neo4j store model (src/ingestion/neo4j_loader.py)

The store is an explicit state acted on by the Cypher statements the
loader issues.  Property values are primitives (`NVal`); following Neo4j
semantics, setting a property to null stores nothing, so an optional
parameter contributes an entry only when present.  The `event_id_unique`
constraint from `create_schema` makes the plain `CREATE` of an Event node
fail when the id already exists. -/

/-- A Neo4j property value. -/
inductive NVal where
  | b (v : Bool)
  | i (v : Int)
  | f (v : Rat)
  | s (v : String)
deriving DecidableEq, Repr

/-- Python truthiness of a property value returned from the store. -/
def nvalTruthy : NVal → Bool
  | .b v => v
  | .i n => n ≠ 0
  | .f q => q ≠ 0
  | .s s => s ≠ ""

/-- Property entry for an optional parameter: null stores nothing. -/
def entryOpt (k : String) : Option NVal → List (String × NVal)
  | none => []
  | some v => [(k, v)]

/-- Lookup of a property on an attribute list. -/
def lookupAttr (attrs : List (String × NVal)) (k : String) : Option NVal :=
  (attrs.find? (fun p => p.1 = k)).map (fun p => p.2)

/-- Minimal JSON string escaping (quote and backslash). -/
def jsonEscape (s : String) : String :=
  ⟨(s.data.map (fun c =>
      if c = '"' then ['\\', '"']
      else if c = '\\' then ['\\', '\\']
      else [c])).join⟩

/-- Model of `json.dumps` on the sparse-properties dict. -/
def jsonDumps (props : List (String × PropVal)) : String :=
  let item : String × PropVal → String := fun p =>
    let v := match p.2 with
      | .s v => "\"" ++ jsonEscape v ++ "\""
      | .i n => toString n
    "\"" ++ jsonEscape p.1 ++ "\": " ++ v
  "\x7b" ++ String.intercalate (", ") (props.map item) ++ "\x7d"

/-- An Event node: its id plus the property map the `CREATE` stored. -/
structure EventNode where
  eventId : String
  attrs : List (String × NVal)
deriving DecidableEq, Repr

/-- An Actor node with the properties `ON CREATE SET` stores. -/
structure ActorNode where
  actorId : String
  name : String
  cameoCode : Option String
  isGovernment : Bool
deriving DecidableEq, Repr

/-- A Location node with the properties `ON CREATE SET` stores. -/
structure LocationNode where
  locationId : String
  name : Option String
  country : Option String
  latitude : Option Rat
  longitude : Option Rat
  locationType : Option Int
  region : Option Int
deriving DecidableEq, Repr

/-- A role edge (INITIATED_BY / TARGETED / VICTIMIZED) with its
relationship attributes. -/
structure RoleEdge where
  eventId : String
  actorId : String
  relType : String
  attrs : List (String × NVal)
deriving DecidableEq, Repr

/-- A LINKED_TO edge with its direction tag. -/
structure LinkEdge where
  src : String
  dst : String
  direction : String
deriving DecidableEq, Repr

/-- The graph store state. -/
structure Graph where
  events : List EventNode := []
  actors : List ActorNode := []
  locations : List LocationNode := []
  roleEdges : List RoleEdge := []
  occEdges : List (String × String) := []
  typeEdges : List (String × String) := []
  linkEdges : List LinkEdge := []
  eventTypeCodes : List String := []
deriving DecidableEq, Repr

/-- Presence of an Event node by id. -/
def hasEvent (g : Graph) (eid : String) : Bool :=
  g.events.any (fun n => n.eventId = eid)

/-- Presence of an Actor node by id. -/
def hasActor (g : Graph) (aid : String) : Bool :=
  g.actors.any (fun a => a.actorId = aid)

/-- Presence of a Location node by id. -/
def hasLocation (g : Graph) (lid : String) : Bool :=
  g.locations.any (fun l => l.locationId = lid)

/-- Property map stored by `_create_event_node`'s CREATE statement, in the
statement's key order; null-valued parameters store nothing. -/
def mkEventAttrs (e : SpeedEvent) : List (String × NVal) :=
  entryOpt ("eventId") (some (.s e.event_id)) ++
  entryOpt ("year") (e.temporal.year.map .i) ++
  entryOpt ("month") (e.temporal.month.map .i) ++
  entryOpt ("day") (e.temporal.day.map .i) ++
  entryOpt ("dateType") (e.temporal.date_type.map .i) ++
  entryOpt ("julianStartDate") (e.temporal.julian_start_date.map .i) ++
  entryOpt ("julianEndDate") (e.temporal.julian_end_date.map .i) ++
  entryOpt ("daySpan") (e.temporal.day_span.map .i) ++
  entryOpt ("eventType") (e.event_type.map .i) ++
  entryOpt ("peType") (e.pe_type.map .i) ++
  entryOpt ("atkType") (e.atk_type.map .i) ++
  entryOpt ("dsaType") (e.dsa_type.map .i) ++
  entryOpt ("newsSource") (e.news_source.map .s) ++
  entryOpt ("articleId") (e.article_id.map .s) ++
  entryOpt ("isQuasiEvent") (some (.b e.is_quasi_event)) ++
  entryOpt ("isStateAction") (some (.b e.is_state_action)) ++
  entryOpt ("isCoup") (some (.b e.is_coup)) ++
  entryOpt ("isCoupFailed") (some (.b e.is_coup_failed)) ++
  entryOpt ("isLinked") (some (.b e.is_linked)) ++
  entryOpt ("linkType") (e.link_type.map .i) ++
  entryOpt ("isPosthoc") (some (.b e.is_posthoc)) ++
  entryOpt ("propertiesJson")
    (if e.properties = [] then none else some (.s (jsonDumps e.properties)))

/-- Model of `_create_event_node`: a plain CREATE guarded by the
`event_id_unique` constraint, so an existing id raises. -/
def create_event_node (g : Graph) (e : SpeedEvent) : Except String Graph :=
  if hasEvent g e.event_id then
    .error ("ConstraintError: Event.eventId already exists: " ++ e.event_id)
  else
    .ok { g with events := g.events ++ [{ eventId := e.event_id, attrs := mkEventAttrs e }] }

/-- MERGE of an Actor node by id: `ON CREATE SET` fills the attributes
only when the node is created; a matched node is untouched. -/
def mergeActor (g : Graph) (aid pname : String) (cameo : Option String)
    (isGov : Bool) : Graph :=
  if hasActor g aid then g
  else
    { g with actors := g.actors ++
        [{ actorId := aid, name := pname, cameoCode := cameo, isGovernment := isGov }] }

/-- MERGE of a role edge by (event, actor, type), then SET of its
attributes: a matched edge has its attributes overwritten, a missing edge
is created. -/
def mergeRoleEdge (g : Graph) (eid aid relType : String)
    (attrs : List (String × NVal)) : Graph :=
  if g.roleEdges.any (fun r => r.eventId = eid && r.actorId = aid && r.relType = relType) then
    { g with roleEdges := g.roleEdges.map (fun r =>
        if r.eventId = eid && r.actorId = aid && r.relType = relType then
          { r with attrs := attrs }
        else r) }
  else
    { g with roleEdges := g.roleEdges ++
        [{ eventId := eid, actorId := aid, relType := relType, attrs := attrs }] }

/-- Relationship attributes the initiator statement SETs. -/
def iniEdgeAttrs (a : PyActor) : List (String × NVal) :=
  entryOpt ("actorType") (a.actor_type.map .i) ++
  entryOpt ("governmentType") (a.government_type.map .i) ++
  entryOpt ("governmentLevel") (a.government_level.map .i) ++
  entryOpt ("ambiguity") (a.ambiguity.map .f) ++
  entryOpt ("numParticipants") (a.num_participants.map .i) ++
  entryOpt ("numArmed") (a.num_armed.map .i)

/-- Relationship attributes the target/victim statements SET. -/
def tvEdgeAttrs (a : PyActor) : List (String × NVal) :=
  entryOpt ("actorType") (a.actor_type.map .i) ++
  entryOpt ("governmentType") (a.government_type.map .i) ++
  entryOpt ("governmentLevel") (a.government_level.map .i) ++
  entryOpt ("isHuman") (some (.b a.is_human))

/-- One role block of `_create_actor_relationships`: guarded by a truthy
actor with a truthy primary name; MERGE the Actor, then (only when the
MATCH on the Event succeeds) MERGE the role edge and SET its attributes. -/
def actorRoleStep (g : Graph) (eid : String) (actorOpt : Option PyActor)
    (relType : String) (mkAttrs : PyActor → List (String × NVal)) : Graph :=
  match actorOpt with
  | none => g
  | some a =>
    if !strTruthy a.primary_name then g
    else
      let pname := a.primary_name.getD ""
      let actor_id := generate_actor_id pname
      let g1 := mergeActor g actor_id pname a.identity_group a.is_government
      if hasEvent g1 eid then mergeRoleEdge g1 eid actor_id relType (mkAttrs a)
      else g1

/-- Model of `_create_actor_relationships`: the initiator, target and
victim blocks in statement order. -/
def create_actor_relationships (g : Graph) (e : SpeedEvent) : Graph :=
  actorRoleStep
    (actorRoleStep (actorRoleStep g e.event_id e.initiator ("INITIATED_BY") iniEdgeAttrs)
      e.event_id e.target ("TARGETED") tvEdgeAttrs)
    e.event_id e.victim ("VICTIMIZED") tvEdgeAttrs

/-- MERGE of a Location node by id with `ON CREATE SET` semantics. -/
def mergeLocation (g : Graph) (lid : String) (loc : PyLocation) : Graph :=
  if hasLocation g lid then g
  else
    { g with locations := g.locations ++
        [{ locationId := lid, name := loc.name, country := loc.country,
           latitude := loc.latitude, longitude := loc.longitude,
           locationType := loc.location_type, region := loc.region }] }

/-- MERGE of an OCCURRED_AT edge (no attributes). -/
def mergeOccEdge (g : Graph) (eid lid : String) : Graph :=
  if (eid, lid) ∈ g.occEdges then g
  else { g with occEdges := g.occEdges ++ [(eid, lid)] }

/-- Model of `_create_location_relationship`: guarded by a location with a
truthy name or country; the id key is `name or country`. -/
def create_location_relationship (g : Graph) (e : SpeedEvent) : Graph :=
  match e.location with
  | none => g
  | some loc =>
    if !(strTruthy loc.name || strTruthy loc.country) then g
    else
      -- the guard makes the empty fallback of `name or country` unreachable
      let location_id :=
        generate_location_id ((pyOrStr loc.name loc.country).getD "")
          loc.latitude loc.longitude
      let g1 := mergeLocation g location_id loc
      if hasEvent g1 e.event_id then mergeOccEdge g1 e.event_id location_id
      else g1

/-- Model of `_link_event_type`: guarded by a truthy event type; MATCH the
Event, OPTIONAL MATCH the EventType by `str(code)`, and MERGE the OF_TYPE
edge only when the type exists. -/
def link_event_type (g : Graph) (e : SpeedEvent) : Graph :=
  match e.event_type with
  | none => g
  | some t =>
    if t = 0 then g
    else if hasEvent g e.event_id then
      let code := toString t
      if code ∈ g.eventTypeCodes then
        if (e.event_id, code) ∈ g.typeEdges then g
        else { g with typeEdges := g.typeEdges ++ [(e.event_id, code)] }
      else g
    else g

/-- A per-Event load failure logged by `_load_event_batch`. -/
structure LoadError where
  event_id : String
  error : String
deriving DecidableEq, Repr

/-- Model of `_load_event_batch`: per event, CREATE the node then the
actor, location and type statements; an exception is caught per event
(the rest of that event's statements are skipped) and the batch
continues. -/
def load_event_batch : Graph → List SpeedEvent → Graph × List LoadError
  | g, [] => (g, [])
  | g, e :: rest =>
    match create_event_node g e with
    | .error msg =>
      ((load_event_batch g rest).1,
        { event_id := e.event_id, error := msg } :: (load_event_batch g rest).2)
    | .ok g1 =>
      load_event_batch
        (link_event_type (create_location_relationship (create_actor_relationships g1 e) e) e)
        rest

/-- MERGE of a LINKED_TO edge between two matched events, then SET of its
direction; either MATCH failing yields no row and no write. -/
def mergeLinkEdge (g : Graph) (srcP dstP : NVal) (dir : String) : Graph :=
  match srcP, dstP with
  | .s src, .s dst =>
    if hasEvent g src && hasEvent g dst then
      if g.linkEdges.any (fun l => l.src = src && l.dst = dst) then
        { g with linkEdges := g.linkEdges.map (fun l =>
            if l.src = src && l.dst = dst then { l with direction := dir } else l) }
      else { g with linkEdges := g.linkEdges ++ [{ src := src, dst := dst, direction := dir }] }
    else g
  | _, _ => g

/-- The two linkage merges of Pass 2 for one record, given the `props`
dict: look up FROM_EID and TO_EID and merge a direction-tagged LINKED_TO
edge for each truthy value. -/
def linkMerges (g : Graph) (eid : String) (props : List (String × NVal)) : Graph :=
  let from_eid := (props.find? (fun p => p.1 = "FROM_EID")).map (fun p => p.2)
  let g1 :=
    match from_eid with
    | some v => if nvalTruthy v then mergeLinkEdge g v (.s eid) ("from") else g
    | none => g
  let to_eid := (props.find? (fun p => p.1 = "TO_EID")).map (fun p => p.2)
  match to_eid with
  | some v => if nvalTruthy v then mergeLinkEdge g1 (.s eid) v ("to") else g1
  | none => g1

/-- Pass 2 body for one linked event: `record["props"] or \x7b\x7d` turns a
missing/falsy `e.properties` into the empty dict; Neo4j properties are
primitives, so a truthy value here is a non-dict and `props.get` raises
`AttributeError`. -/
def linkStep (g : Graph) (n : EventNode) : Except String Graph :=
  match lookupAttr n.attrs ("properties") with
  | some v =>
    if nvalTruthy v then .error ("AttributeError: props.get on a non-dict value")
    else .ok (linkMerges g n.eventId [])
  | none => .ok (linkMerges g n.eventId [])

/-- Model of `_create_event_links` (Pass 2): scan all events whose
`isLinked` property is true and process each with `linkStep`. -/
def create_event_links (g : Graph) : Except String Graph :=
  (g.events.filter (fun n => lookupAttr n.attrs ("isLinked") = some (.b true))).foldlM
    linkStep g

/-! ### Schema validator (src/ingestion/schema_validator.py)

A CSV file is modelled as its header plus the sampled rows, each row a
list of cells aligned with the header; a `none` cell is NaN.  Cell values
are ints or strings (pandas numeric columns compare as numbers; NaN
comparisons are false, which `Option` captures).  Ratio checks use exact
rationals in place of floats, and the `:.1%` float formatting inside two
messages is abstracted to the plain text prefix. -/

/-- A sampled cell value. -/
inductive PyCell where
  | i (n : Int)
  | s (v : String)
deriving DecidableEq, Repr

/-- Header plus sampled rows. -/
structure CsvFile where
  columns : List String
  rows : List (List (Option PyCell))
deriving DecidableEq, Repr

/-- Expected total field count. -/
def EXPECTED_FIELD_COUNT : Nat := 106

/-- Required fields that must be present. -/
def REQUIRED_FIELDS : List String :=
  ["eventid", "year", "month", "day", "EV_TYPE", "NEWS_SOURCE"]

/-- Column selection by name (first matching column, as after pandas
reading). -/
def getCol (f : CsvFile) (name : String) : Option (List (Option PyCell)) :=
  (f.columns.findIdx? (fun c => c = name)).map
    (fun i => f.rows.map (fun r => r.getD i none))

/-- Check 1: exact expected column count. -/
def check_field_count (f : CsvFile) : List String :=
  if f.columns.length ≠ EXPECTED_FIELD_COUNT then
    let n := f.columns.length
    ["Expected " ++ toString EXPECTED_FIELD_COUNT ++ " fields, found " ++ toString n]
  else []

/-- Check 2: presence of the required columns. -/
def check_required_fields (f : CsvFile) : List String :=
  let missing_fields := REQUIRED_FIELDS.filter (fun x => !(f.columns.contains x))
  if missing_fields ≠ [] then
    ["Missing required fields: " ++ String.intercalate (", ") missing_fields]
  else []

/-- Check 3: no duplicate column names (the Python `set` iteration order is
unspecified; first-occurrence order is used here). -/
def check_duplicate_columns (f : CsvFile) : List String :=
  let duplicates := f.columns.filter (fun c => f.columns.count c > 1)
  if duplicates ≠ [] then
    ["Duplicate columns: " ++ String.intercalate (", ") duplicates.eraseDups]
  else []

/-- Count of later duplicates in a column, as `Series.duplicated().sum()`
(pandas counts equal NaN cells as duplicates too). -/
def dupCount (cells : List (Option PyCell)) : Nat :=
  (cells.enum.filter (fun p => (cells.take p.1).contains p.2)).length

/-- Check 4: event id uniqueness within the sample. -/
def check_duplicate_event_ids (f : CsvFile) : List String :=
  match getCol f ("eventid") with
  | none => []
  | some cells =>
    let dup_count := dupCount cells
    if dup_count > 0 then
      ["Duplicate event IDs found in sample: " ++ toString dup_count]
    else []

/-- Rows of a numeric column outside the given closed range (NaN and
non-numeric cells compare false, hence are not counted). -/
def outOfRange (cells : List (Option PyCell)) (lo hi : Int) : Nat :=
  cells.countP (fun c =>
    match c with
    | some (.i n) => n < lo || n > hi
    | _ => false)

/-- Check 5: year/month/day ranges, each an independent finding. -/
def check_temporal_ranges (f : CsvFile) : List String :=
  let yearErrs :=
    match getCol f ("year") with
    | none => []
    | some cells =>
      let k := outOfRange cells 1900 2100
      if k > 0 then
        ["Invalid year values detected: " ++ toString k ++ " rows outside range 1900-2100"]
      else []
  let monthErrs :=
    match getCol f ("month") with
    | none => []
    | some cells =>
      let k := outOfRange cells 1 12
      if k > 0 then ["Invalid month values detected: " ++ toString k ++ " rows"] else []
  let dayErrs :=
    match getCol f ("day") with
    | none => []
    | some cells =>
      let k := outOfRange cells 1 31
      if k > 0 then ["Invalid day values detected: " ++ toString k ++ " rows"] else []
  yearErrs ++ monthErrs ++ dayErrs

/-- Check 6: non-missing EV_TYPE values restricted to the valid set. -/
def check_event_types (f : CsvFile) : List String :=
  match getCol f ("EV_TYPE") with
  | none => []
  | some cells =>
    let invalid := cells.countP (fun c =>
      match c with
      | none => false
      | some v => !([PyCell.i 1, PyCell.i 2, PyCell.i 4, PyCell.i 5].contains v))
    if invalid > 0 then
      ["Invalid EV_TYPE values detected: " ++ toString invalid ++ " rows (valid: 1 2 4 5)"]
    else []

/-- Overall completeness ratio of `_check_completeness`: non-null cells
over total cells, 0 when the sample is empty. -/
def overall_complete (f : CsvFile) : Rat :=
  let ncols := f.columns.length
  let total_cells := f.rows.length * ncols
  let non_null_cells :=
    (f.rows.map (fun r => (List.range ncols).countP (fun i => r.getD i none ≠ none))).sum
  if total_cells > 0 then (non_null_cells : Rat) / (total_cells : Rat) else 0

/-- Check 7: aggregate completeness below 1 percent. -/
def check_completeness_ratio (f : CsvFile) : List String :=
  if overall_complete f < 1 / 100 then ["Very low data completeness"] else []

/-- Critical fields each needing at least half the sample populated. -/
def critical_fields : List String := ["eventid", "year", "EV_TYPE"]

/-- Check 8: per critical field, a missing rate above one half (an empty
sample divides NaN-style and compares false, hence no finding). -/
def check_critical_fields (f : CsvFile) : List String :=
  (critical_fields.map (fun field =>
    match getCol f field with
    | none => []
    | some cells =>
      let missing := cells.countP (fun c => c = none)
      if f.rows.length > 0 &&
          (missing : Rat) / (f.rows.length : Rat) > 1 / 2 then
        ["Critical field " ++ field ++ " has too many missing values"]
      else [])).join

/-- Model of `SchemaValidator.validate` on a readable file: the eight
checks run in order, each appending its findings to the running error
list, and the boolean is the emptiness of that list. -/
def validate (f : CsvFile) : Bool × List String :=
  let errors : List String := []
  let errors := errors ++ check_field_count f
  let errors := errors ++ check_required_fields f
  let errors := errors ++ check_duplicate_columns f
  let errors := errors ++ check_duplicate_event_ids f
  let errors := errors ++ check_temporal_ranges f
  let errors := errors ++ check_event_types f
  let errors := errors ++ check_completeness_ratio f
  let errors := errors ++ check_critical_fields f
  if errors = [] then (true, []) else (false, errors)

/-! ### CAMEO event types (src/ingestion/cameo_parser.py, src/domain/cameo.py) -/

/-- Model of Python `int(s)` on a string: optional surrounding whitespace,
optional sign, then at least one digit. -/
def pyIntOfString (s : String) : Option Int :=
  let l := pyStripList s.data
  let sl : Int × List Char :=
    match l with
    | '+' :: r => (1, r)
    | '-' :: r => (-1, r)
    | r => (1, r)
  if sl.2 ≠ [] && sl.2.all Char.isDigit then
    some (sl.1 * (digitsToNat sl.2 : Int))
  else none

/-- Model of the `CAMEOEventType` dataclass. -/
structure CAMEOEventType where
  code : String
  label : String
  level : Int
  category : Option String := none
deriving DecidableEq, Repr

/-- Model of `CAMEOEventType.parent_code`: the code minus its last
character, for levels above 1 with codes longer than 2. -/
def CAMEOEventType.parent_code (et : CAMEOEventType) : Option String :=
  if et.level > 1 && et.code.length > 2 then some ⟨et.code.data.dropLast⟩
  else none

/-- Model of `CAMEOEventType.root_category`: the first two characters. -/
def CAMEOEventType.root_category (et : CAMEOEventType) : String :=
  if et.code.length ≥ 2 then ⟨et.code.data.take 2⟩ else et.code

/-- Model of `CAMEOEventType.is_cooperation`: root category 01-09. -/
def CAMEOEventType.is_cooperation (et : CAMEOEventType) : Bool :=
  match pyIntOfString et.root_category with
  | some cat => 1 ≤ cat && cat ≤ 9
  | none => false

/-- Model of `CAMEOEventType.is_conflict`: root category 10-20. -/
def CAMEOEventType.is_conflict (et : CAMEOEventType) : Bool :=
  match pyIntOfString et.root_category with
  | some cat => 10 ≤ cat && cat ≤ 20
  | none => false

/-- Model of `CAMEOEventType.is_material`: root category 15-20. -/
def CAMEOEventType.is_material (et : CAMEOEventType) : Bool :=
  match pyIntOfString et.root_category with
  | some cat => 15 ≤ cat && cat ≤ 20
  | none => false

/-- Model of `CAMEOEventType.is_verbal`: root category 01-14. -/
def CAMEOEventType.is_verbal (et : CAMEOEventType) : Bool :=
  match pyIntOfString et.root_category with
  | some cat => 1 ≤ cat && cat ≤ 14
  | none => false

/-- Match of `re.match(LABEL-pattern, line)` returning the code and label
groups; the label group is returned pre-stripped, as its only use
immediately strips it. -/
def labelMatch (line : String) : Option (String × String) :=
  if !(("LABEL:".data).isPrefixOf line.data) then none
  else
    let r1 := (line.data.drop 6).dropWhile pyIsSpace
    let digits := r1.takeWhile Char.isDigit
    if digits = [] then none
    else
      let r2 := (r1.dropWhile Char.isDigit).dropWhile pyIsSpace
      match r2 with
      | '=' :: r3 => if r3 = [] then none else some (⟨digits⟩, ⟨pyStripList r3⟩)
      | _ => none

/-- Model of `CAMEOParser.parse_event_types` over the file's lines: strip
each line, keep LABEL lines matching the pattern, and build the event
type with level and two-character category from the code. -/
def parse_event_types (lines : List String) : List CAMEOEventType :=
  lines.foldl
    (fun acc rawLine =>
      let line := pyStrip rawLine
      if !(("LABEL:".data).isPrefixOf line.data) then acc
      else
        match labelMatch line with
        | none => acc
        | some (code, label) =>
          let c := pyStrip code
          acc ++ [{ code := c
                    label := pyStrip label
                    level := (c.length : Int)
                    category := some (if c.length ≥ 2 then ⟨c.data.take 2⟩ else c) }])
    []

/-- Model of `CAMEOParser.build_event_type_hierarchy`: an
insertion-ordered map from parent code to the list of child codes. -/
def build_event_type_hierarchy (event_types : List CAMEOEventType) :
    List (String × List String) :=
  event_types.foldl
    (fun h et =>
      match et.parent_code with
      | none => h
      | some p =>
        if h.any (fun q => q.1 = p) then
          h.map (fun q => if q.1 = p then (p, q.2 ++ [et.code]) else q)
        else h ++ [(p, [et.code])])
    []

/-! ### Character-level lemmas for the normalisation claims -/

lemma toNat_ofNat_small {n : Nat} (h : n < 55296) : (Char.ofNat n).toNat = n := by
  unfold Char.ofNat
  rw [dif_pos]
  · rfl
  · exact Or.inl h

lemma pyLowerChar_idem (c : Char) : pyLowerChar (pyLowerChar c) = pyLowerChar c := by
  unfold pyLowerChar
  by_cases h : (65 ≤ c.toNat && c.toNat ≤ 90) = true
  · have hh := h
    simp only [Bool.and_eq_true, decide_eq_true_eq] at hh
    rw [if_pos h]
    have ht : (Char.ofNat (c.toNat + 32)).toNat = c.toNat + 32 :=
      toNat_ofNat_small (by omega)
    rw [if_neg]
    simp only [ht, Bool.and_eq_true, decide_eq_true_eq, not_and]
    omega
  · rw [if_neg h, if_neg h]

lemma pyIsSpace_lowerChar (c : Char) : pyIsSpace (pyLowerChar c) = pyIsSpace c := by
  unfold pyIsSpace pyLowerChar
  by_cases h : (65 ≤ c.toNat && c.toNat ≤ 90) = true
  · have hh := h
    simp only [Bool.and_eq_true, decide_eq_true_eq] at hh
    rw [if_pos h]
    have ht : (Char.ofNat (c.toNat + 32)).toNat = c.toNat + 32 :=
      toNat_ofNat_small (by omega)
    rw [ht]
    apply decide_eq_decide.mpr
    simp only [List.mem_cons, List.not_mem_nil, or_false]
    omega
  · rw [if_neg h]

lemma lowerList_idem (l : List Char) :
    (l.map pyLowerChar).map pyLowerChar = l.map pyLowerChar := by
  rw [List.map_map]
  exact List.map_congr_left (fun c _ => pyLowerChar_idem c)

lemma stripList_map_lower (l : List Char) :
    pyStripList (l.map pyLowerChar) = (pyStripList l).map pyLowerChar := by
  have hps : pyIsSpace ∘ pyLowerChar = pyIsSpace := funext pyIsSpace_lowerChar
  unfold pyStripList
  rw [List.dropWhile_map, hps, List.reverse_map, List.dropWhile_map, hps, List.reverse_map]

lemma stripList_cons_of_neg {a : Char} {t : List Char} (h : pyIsSpace a = false) :
    pyStripList (a :: t) = a :: (t.reverse.dropWhile pyIsSpace).reverse := by
  unfold pyStripList
  rw [List.dropWhile_cons]
  simp only [h, Bool.false_eq_true, if_false, List.reverse_cons, List.dropWhile_append]
  by_cases he : (t.reverse.dropWhile pyIsSpace).isEmpty = true
  · simp only [he, if_true, List.dropWhile_cons, h, Bool.false_eq_true, if_false,
      List.dropWhile_nil]
    rw [List.isEmpty_iff.mp he]
    rfl
  · simp only [he, Bool.false_eq_true, if_false, List.reverse_append]
    rfl

lemma stripList_idem (l : List Char) : pyStripList (pyStripList l) = pyStripList l := by
  induction l with
  | nil => rfl
  | cons a t ih =>
    by_cases h : pyIsSpace a = true
    · have hs : pyStripList (a :: t) = pyStripList t := by
        unfold pyStripList
        rw [List.dropWhile_cons, if_pos h]
      rw [hs, ih]
    · have h' : pyIsSpace a = false := by simpa using h
      rw [stripList_cons_of_neg h', stripList_cons_of_neg h']
      congr 1
      rw [List.reverse_reverse, List.dropWhile_idempotent]

lemma pyNormName_idem (s : String) : pyNormName (pyNormName s) = pyNormName s := by
  unfold pyNormName pyStrip pyLower
  congr 1
  show pyStripList ((pyStripList (s.data.map pyLowerChar)).map pyLowerChar) = _
  rw [← stripList_map_lower, lowerList_idem, stripList_idem]

/-- C7: the normalisation inside `generate_actor_id` (lower-case then
strip) is idempotent, hashing the twice-normalised name gives the hash of
the once-normalised name, and any two non-empty names agreeing after
case-folding and trimming (in particular names differing only in letter
case or leading/trailing whitespace) receive the same actor id. -/
theorem C7_actor_id_normalization :
    (∀ s : String, pyNormName (pyNormName s) = pyNormName s) ∧
    (∀ s : String,
      md5HexChars (utf8 (pyNormName (pyNormName s))) = md5HexChars (utf8 (pyNormName s))) ∧
    (∀ s t : String, s ≠ "" → t ≠ "" → pyNormName s = pyNormName t →
      generate_actor_id s = generate_actor_id t) := by
  refine ⟨pyNormName_idem, fun s => by rw [pyNormName_idem], fun s t hs ht h => ?_⟩
  unfold generate_actor_id
  rw [if_neg hs, if_neg ht, h]

/-- C7 witness: the theorem applied to the concrete names
`" Rebel Forces "` and `"REBEL FORCES"`. -/
theorem C7_actor_id_normalization_witness :
    pyNormName (pyNormName (" Rebel FORCES ")) = pyNormName (" Rebel FORCES ") ∧
    (" Rebel Forces " ≠ "") ∧ ("REBEL FORCES" ≠ "") ∧
    pyNormName (" Rebel Forces ") = pyNormName ("REBEL FORCES") ∧
    generate_actor_id (" Rebel Forces ") = generate_actor_id ("REBEL FORCES") :=
  ⟨C7_actor_id_normalization.1 _, by decide, by decide, by decide,
    C7_actor_id_normalization.2.2 _ _ (by decide) (by decide) (by decide)⟩

/-! ### Lemmas for the location-id claim -/

/-- Upper-case hexadecimal digits 0-9, A-F (by character code). -/
def upperHexChars : List Char :=
  (List.range 16).map (fun n => if n < 10 then Char.ofNat (48 + n) else Char.ofNat (55 + n))

lemma pyLower_append (a b : String) : pyLower (a ++ b) = pyLower a ++ pyLower b := by
  unfold pyLower
  exact congrArg String.mk (by simp)

lemma leBytes_length (k : Nat) : ∀ n, (leBytes k n).length = k := by
  induction k with
  | zero => intro n; rfl
  | succ k ih => intro n; simp [leBytes, ih]

lemma md5_length (m : List Nat) : (md5 m).length = 16 := by
  simp [md5, leBytes_length]

lemma joinMap_byteHex_length (l : List Nat) :
    ((l.map byteHex).join).length = 2 * l.length := by
  induction l with
  | nil => rfl
  | cons b t ih =>
    show (byteHex b ++ (t.map byteHex).join).length = 2 * (b :: t).length
    simp only [List.length_append, ih, byteHex, List.length_cons, List.length_nil]
    omega

lemma md5HexChars_length (m : List Nat) : (md5HexChars m).length = 32 := by
  unfold md5HexChars
  rw [joinMap_byteHex_length, md5_length]

lemma hexChar_mem (n : Nat) : hexChar n ∈ hexDigits := by
  unfold hexChar
  by_cases h : n < hexDigits.length
  · rw [List.getD_eq_get _ _ h]
    exact List.get_mem _ _ _
  · rw [List.getD_eq_default _ _ (le_of_not_lt h)]
    decide

lemma md5HexChars_mem {m : List Nat} {c : Char} (h : c ∈ md5HexChars m) :
    c ∈ hexDigits := by
  unfold md5HexChars at h
  rw [List.mem_join] at h
  obtain ⟨s, hs, hc⟩ := h
  rw [List.mem_map] at hs
  obtain ⟨b, _, rfl⟩ := hs
  simp only [byteHex, List.mem_cons, List.not_mem_nil, or_false] at hc
  rcases hc with rfl | rfl <;> exact hexChar_mem _

lemma upperChar_hex : ∀ c ∈ hexDigits, pyUpperChar c ∈ upperHexChars := by decide

lemma generate_location_id_congr {n1 n2 : String} (lat lon : Option Rat)
    (h : pyLower n1 = pyLower n2) :
    generate_location_id n1 lat lon = generate_location_id n2 lat lon := by
  unfold generate_location_id
  have hk :
      pyLower (n1 ++ "_" ++ pyStrOfOptFloat lat ++ "_" ++ pyStrOfOptFloat lon) =
        pyLower (n2 ++ "_" ++ pyStrOfOptFloat lat ++ "_" ++ pyStrOfOptFloat lon) := by
    simp only [pyLower_append, h]
  rw [hk]

lemma mergeOccEdge_locations (g : Graph) (eid lid : String) :
    (mergeOccEdge g eid lid).locations = g.locations := by
  unfold mergeOccEdge
  split <;> rfl

lemma hasLocation_congr {x y : Graph} (h : x.locations = y.locations) (lid : String) :
    hasLocation x lid = hasLocation y lid := by
  unfold hasLocation
  rw [h]

lemma hasLocation_mergeLocation (g : Graph) (lid : String) (loc : PyLocation) :
    hasLocation (mergeLocation g lid loc) lid = true := by
  unfold mergeLocation
  by_cases h : hasLocation g lid = true
  · rw [if_pos h]
    exact h
  · rw [if_neg h]
    unfold hasLocation
    simp

lemma mergeLocation_of_has {g : Graph} {lid : String} (loc : PyLocation)
    (h : hasLocation g lid = true) : mergeLocation g lid loc = g := by
  unfold mergeLocation
  rw [if_pos h]

/-- C10: the location key is lower-cased before hashing, so names agreeing
after case-folding (with equal coordinates) receive the same id; the id
is LOC_ plus 12 upper-case hex characters; and loading a second event
whose location differs only in case leaves the Location node list exactly
as the first load created it (the first variant's attributes win). -/
theorem C10_location_dedup :
    (∀ (n1 n2 : String) (lat lon : Option Rat), pyLower n1 = pyLower n2 →
      generate_location_id n1 lat lon = generate_location_id n2 lat lon) ∧
    (∀ (name : String) (lat lon : Option Rat), ∃ hs : List Char,
      generate_location_id name lat lon = "LOC_" ++ String.mk hs ∧
      hs.length = 12 ∧ ∀ c ∈ hs, c ∈ upperHexChars) ∧
    (∀ (g : Graph) (e1 e2 : SpeedEvent) (loc1 loc2 : PyLocation),
      e1.location = some loc1 → e2.location = some loc2 →
      (strTruthy loc1.name || strTruthy loc1.country) = true →
      (strTruthy loc2.name || strTruthy loc2.country) = true →
      pyLower ((pyOrStr loc1.name loc1.country).getD "") =
        pyLower ((pyOrStr loc2.name loc2.country).getD "") →
      loc1.latitude = loc2.latitude → loc1.longitude = loc2.longitude →
      (create_location_relationship (create_location_relationship g e1) e2).locations =
        (create_location_relationship g e1).locations) := by
  refine ⟨fun n1 n2 lat lon h => generate_location_id_congr lat lon h, ?_, ?_⟩
  · intro name lat lon
    refine ⟨((md5HexChars (utf8 (pyLower (name ++ "_" ++ pyStrOfOptFloat lat ++ "_" ++
        pyStrOfOptFloat lon)))).take 12).map pyUpperChar, rfl, ?_, ?_⟩
    · rw [List.length_map, List.length_take, md5HexChars_length]
      decide
    · intro c hc
      rw [List.mem_map] at hc
      obtain ⟨c0, hc0, rfl⟩ := hc
      exact upperChar_hex c0 (md5HexChars_mem (List.take_subset _ _ hc0))
  · intro g e1 e2 loc1 loc2 h1 h2 ht1 ht2 hn hlat hlon
    have hid :
        generate_location_id ((pyOrStr loc2.name loc2.country).getD "")
          loc2.latitude loc2.longitude =
        generate_location_id ((pyOrStr loc1.name loc1.country).getD "")
          loc1.latitude loc1.longitude := by
      rw [← hlat, ← hlon]
      exact generate_location_id_congr _ _ hn.symm
    unfold create_location_relationship
    rw [h1, h2]
    simp only [ht1, ht2, Bool.or_self, Bool.not_true, Bool.false_eq_true, if_false]
    set lid1 := generate_location_id ((pyOrStr loc1.name loc1.country).getD "")
      loc1.latitude loc1.longitude with hlid1
    set G1 :=
      if hasEvent (mergeLocation g lid1 loc1) e1.event_id = true then
        mergeOccEdge (mergeLocation g lid1 loc1) e1.event_id lid1
      else mergeLocation g lid1 loc1 with hG1
    have hG1loc : G1.locations = (mergeLocation g lid1 loc1).locations := by
      rw [hG1]
      split
      · exact mergeOccEdge_locations _ _ _
      · rfl
    have hhas : hasLocation G1 lid1 = true := by
      rw [hasLocation_congr hG1loc, hasLocation_mergeLocation]
    rw [hid, mergeLocation_of_has loc2 hhas]
    split
    · exact mergeOccEdge_locations _ _ _
    · rfl

/-- C10 witness: the theorem's parts applied at the concrete names
`"Paris"`/`"PARIS"` with latitude 12.5, and at two concrete events
carrying those locations loaded into the empty store. -/
theorem C10_location_dedup_witness :
    (pyLower ("Paris") = pyLower ("PARIS") ∧
      generate_location_id ("Paris") (some (25 / 2)) none =
        generate_location_id ("PARIS") (some (25 / 2)) none) ∧
    (∃ hs : List Char,
      generate_location_id ("Paris") (some (25 / 2)) none = "LOC_" ++ String.mk hs ∧
      hs.length = 12 ∧ ∀ c ∈ hs, c ∈ upperHexChars) ∧
    ((create_location_relationship (create_location_relationship {}
        { event_id := "E1", temporal := {},
          location := some { name := some "Paris", latitude := some (25 / 2) } })
        { event_id := "E2", temporal := {},
          location := some { name := some "PARIS", latitude := some (25 / 2) } }).locations =
      (create_location_relationship {}
        { event_id := "E1", temporal := {},
          location := some { name := some "Paris", latitude := some (25 / 2) } }).locations) :=
  ⟨⟨by decide, C10_location_dedup.1 _ _ _ _ (by decide)⟩,
    C10_location_dedup.2.1 _ _ _,
    C10_location_dedup.2.2 _ _ _ _ _ rfl rfl (by decide) (by decide) (by decide) rfl rfl⟩

/-! ### C4: invalid calendar dates -/

/-- Concrete temporal info whose fields form no valid calendar date. -/
def C4_temporal : TemporalInfo := { year := some 2000, month := some 13, day := some 5 }

/-- C4 counterexample: with year 2000, month 13, day 5 all present,
`calendar_date` is indeed absent, but `precision` reports `"day"` — the
finest populated field — rather than falling back to a coarser available
field as the claim states (it is neither `"month"` nor `"year"`). -/
theorem C4_counterexample :
    C4_temporal.calendar_date = none ∧ C4_temporal.precision = "day" ∧
    C4_temporal.precision ≠ "month" ∧ C4_temporal.precision ≠ "year" := by
  decide

/-- C4 amended: for every TemporalInfo whose year, month and day are all
present (truthy) but form no valid calendar date, no exception propagates
(`calendar_date` is total and absent), and `precision` is derived purely
from which fields are populated, so it still reports `"day"`. -/
theorem C4_amended_precision (t : TemporalInfo) (y m d : Int)
    (hy : t.year = some y) (hm : t.month = some m) (hd : t.day = some d)
    (hty : y ≠ 0) (htm : m ≠ 0) (htd : d ≠ 0)
    (hinv : isValidDate y m d = false) :
    t.calendar_date = none ∧ t.precision = "day" := by
  constructor
  · unfold TemporalInfo.calendar_date
    rw [hy, hm, hd]
    simp [intTruthy, hty, htm, htd, hinv]
  · unfold TemporalInfo.precision
    rw [hd]
    simp [intTruthy, htd]

/-- C4 witness: the amended theorem applied at year 2000, month 13,
day 5. -/
theorem C4_amended_precision_witness :
    isValidDate 2000 13 5 = false ∧
    C4_temporal.calendar_date = none ∧ C4_temporal.precision = "day" :=
  ⟨by decide,
    (C4_amended_precision C4_temporal 2000 13 5 rfl rfl rfl (by decide) (by decide)
      (by decide) (by decide)).1,
    (C4_amended_precision C4_temporal 2000 13 5 rfl rfl rfl (by decide) (by decide)
      (by decide) (by decide)).2⟩

/-! ### C8: CAMEO event-type parsing example -/

/-- C8: parsing the two LABEL lines yields event types with codes 01 and
010, the hierarchy maps 01 to the child list [010], and the 010 event
type has root category 01, is cooperation and is not conflict. -/
theorem C8_cameo_event_types :
    parse_event_types
        ["LABEL: 01= Make public statement", "LABEL: 010= Make statement"] =
      [{ code := "01", label := "Make public statement", level := 2, category := some "01" },
       { code := "010", label := "Make statement", level := 3, category := some "01" }] ∧
    build_event_type_hierarchy
        (parse_event_types
          ["LABEL: 01= Make public statement", "LABEL: 010= Make statement"]) =
      [("01", ["010"])] ∧
    CAMEOEventType.root_category
        { code := "010", label := "Make statement", level := 3, category := some "01" } =
      "01" ∧
    CAMEOEventType.is_cooperation
        { code := "010", label := "Make statement", level := 3, category := some "01" } =
      true ∧
    CAMEOEventType.is_conflict
        { code := "010", label := "Make statement", level := 3, category := some "01" } =
      false := by
  decide

/-! ### C5: schema validation with a short header -/

/-- The eight checks of `validate` as independent finding lists, in the
order the source appends them. -/
def allChecks (f : CsvFile) : List String :=
  check_field_count f ++ check_required_fields f ++ check_duplicate_columns f ++
  check_duplicate_event_ids f ++ check_temporal_ranges f ++ check_event_types f ++
  check_completeness_ratio f ++ check_critical_fields f

lemma ite_emptiness (E : List String) :
    (if E = [] then ((true : Bool), ([] : List String)) else (false, E)) =
      (E.isEmpty, E) := by
  cases E <;> simp

lemma validate_eq (f : CsvFile) :
    validate f = ((allChecks f).isEmpty, allChecks f) := by
  unfold validate allChecks
  simp only [List.nil_append, List.append_assoc]
  exact ite_emptiness _

/-- C5: the validator never short-circuits — its error list is exactly the
concatenation of the eight independent checks' findings and its boolean
is that list's emptiness — and a header of 105 columns contributes
exactly one field-count error while every other check still reports its
own findings. -/
theorem C5_schema_validator :
    (∀ f : CsvFile,
      (validate f).1 = ((validate f).2).isEmpty ∧ (validate f).2 = allChecks f) ∧
    (∀ f : CsvFile, f.columns.length = 105 →
      check_field_count f =
        ["Expected " ++ toString EXPECTED_FIELD_COUNT ++ " fields, found " ++
          toString (105 : Nat)] ∧
      (validate f).1 = false ∧
      (validate f).2 =
        ("Expected " ++ toString EXPECTED_FIELD_COUNT ++ " fields, found " ++
          toString (105 : Nat)) ::
        (check_required_fields f ++ check_duplicate_columns f ++
          check_duplicate_event_ids f ++ check_temporal_ranges f ++
          check_event_types f ++ check_completeness_ratio f ++
          check_critical_fields f)) := by
  constructor
  · intro f
    rw [validate_eq]
    exact ⟨rfl, rfl⟩
  · intro f h
    have h1 : check_field_count f =
        ["Expected " ++ toString EXPECTED_FIELD_COUNT ++ " fields, found " ++
          toString (105 : Nat)] := by
      unfold check_field_count
      rw [h]
      simp [EXPECTED_FIELD_COUNT]
    refine ⟨h1, ?_, ?_⟩
    · rw [validate_eq]
      show (allChecks f).isEmpty = false
      unfold allChecks
      rw [h1]
      rfl
    · rw [validate_eq]
      show allChecks f = _
      unfold allChecks
      rw [h1]
      rfl

/-- Concrete 105-column file for the C5 witness. -/
def C5_file : CsvFile := { columns := List.replicate 105 ("c"), rows := [] }

/-- C5 witness: the theorem applied to a concrete 105-column file. -/
theorem C5_schema_validator_witness :
    C5_file.columns.length = 105 ∧
    (validate C5_file).1 = false ∧
    check_field_count C5_file =
      ["Expected " ++ toString EXPECTED_FIELD_COUNT ++ " fields, found " ++
        toString (105 : Nat)] :=
  ⟨by decide,
    (C5_schema_validator.2 C5_file (by decide)).2.1,
    (C5_schema_validator.2 C5_file (by decide)).1⟩

/-! ### Lemmas for the parser-loop claims -/

/-- The event a row contributes under row parser `rp` (none when skipped
or raising). -/
def rowParsed (rp : Row → Except PyExc (Option SpeedEvent)) (r : Row) :
    Option SpeedEvent :=
  match rp r with
  | .ok (some e) => some e
  | _ => none

/-- Whether a row is counted as skipped under row parser `rp`. -/
def rowSkipped (rp : Row → Except PyExc (Option SpeedEvent)) (r : Row) : Bool :=
  match rp r with
  | .ok (some _) => false
  | _ => true

/-- Error-log entries the loop appends for a row list starting at a given
index. -/
def errEntries (rp : Row → Except PyExc (Option SpeedEvent)) :
    Nat → List Row → List ParseError
  | _, [] => []
  | idx, r :: rest =>
    (match rp r with
      | .error ex =>
        [{ row_index := idx, event_id := safe_get r ("eventid"),
           error := ex.msg, error_type := ex.ename }]
      | _ => []) ++ errEntries rp (idx + 1) rest

lemma parseLoop_spec (rp : Row → Except PyExc (Option SpeedEvent)) (rows : List Row) :
    ∀ (idx : Nat) (st : ParserState),
      (parseLoop rp idx rows st).yielded = st.yielded ++ rows.filterMap (rowParsed rp) ∧
      (parseLoop rp idx rows st).parsed_count =
        st.parsed_count + (rows.filterMap (rowParsed rp)).length ∧
      (parseLoop rp idx rows st).skipped_count =
        st.skipped_count + rows.countP (rowSkipped rp) ∧
      (parseLoop rp idx rows st).errors = st.errors ++ errEntries rp idx rows := by
  induction rows with
  | nil =>
    intro idx st
    simp [parseLoop, errEntries]
  | cons r rest ih =>
    intro idx st
    have hstep : parseLoop rp idx (r :: rest) st =
        parseLoop rp (idx + 1) rest (parseStep rp st (idx, r)) := rfl
    rw [hstep]
    obtain ⟨hy, hp, hs, he⟩ := ih (idx + 1) (parseStep rp st (idx, r))
    rw [hy, hp, hs, he]
    have hcons : errEntries rp idx (r :: rest) =
        (match rp r with
          | .error ex =>
            [{ row_index := idx, event_id := safe_get r ("eventid"),
               error := ex.msg, error_type := ex.ename }]
          | _ => []) ++ errEntries rp (idx + 1) rest := rfl
    cases hr : rp r with
    | ok o =>
      cases o with
      | some e =>
        refine ⟨?_, ?_, ?_, ?_⟩ <;>
          simp [parseStep, hr, rowParsed, rowSkipped, hcons, List.filterMap_cons,
            List.countP_cons] <;> omega
      | none =>
        refine ⟨?_, ?_, ?_, ?_⟩ <;>
          simp [parseStep, hr, rowParsed, rowSkipped, hcons, List.filterMap_cons,
            List.countP_cons] <;> omega
    | error ex =>
      refine ⟨?_, ?_, ?_, ?_⟩ <;>
        simp [parseStep, hr, rowParsed, rowSkipped, hcons, List.filterMap_cons,
          List.countP_cons] <;> omega

lemma filterMap_rowParsed_length (rp : Row → Except PyExc (Option SpeedEvent)) :
    ∀ rows : List Row,
      (rows.filterMap (rowParsed rp)).length + rows.countP (rowSkipped rp) = rows.length := by
  intro rows
  induction rows with
  | nil => rfl
  | cons r rest ih =>
    rw [List.filterMap_cons, List.countP_cons]
    cases hr : rp r with
    | ok o =>
      cases o with
      | some e => simp [rowParsed, rowSkipped, hr]; omega
      | none => simp [rowParsed, rowSkipped, hr]; omega
    | error ex => simp [rowParsed, rowSkipped, hr]; omega

lemma rowParsed_total (r : Row) :
    rowParsed (fun r => .ok (parse_row r)) r = parse_row r := by
  show (match (Except.ok (parse_row r) : Except PyExc (Option SpeedEvent)) with
    | .ok (some e) => some e
    | _ => none) = parse_row r
  cases parse_row r <;> rfl

lemma rowSkipped_total (r : Row) :
    rowSkipped (fun r => .ok (parse_row r)) r = (parse_row r).isNone := by
  show (match (Except.ok (parse_row r) : Except PyExc (Option SpeedEvent)) with
    | .ok (some _) => false
    | _ => true) = (parse_row r).isNone
  cases parse_row r <;> rfl

/-- C9: in any run of the row loop, every processed row increments exactly
one of the two counters, a raising row is logged with its index and
offending id and counted as skipped, and after any number of processed
rows the events yielded so far number `parsed_count` while
`parsed_count + skipped_count` is the number of rows processed. -/
theorem C9_parse_loop_invariants :
    (∀ (rp : Row → Except PyExc (Option SpeedEvent)) (rows : List Row) (n : Nat),
      (parseLoop rp 0 (rows.take n) {}).yielded.length =
        (parseLoop rp 0 (rows.take n) {}).parsed_count ∧
      (parseLoop rp 0 (rows.take n) {}).parsed_count +
        (parseLoop rp 0 (rows.take n) {}).skipped_count = (rows.take n).length) ∧
    (∀ (rp : Row → Except PyExc (Option SpeedEvent)) (st : ParserState) (idx : Nat)
        (row : Row),
      (parseStep rp st (idx, row)).parsed_count + (parseStep rp st (idx, row)).skipped_count =
        st.parsed_count + st.skipped_count + 1) ∧
    (∀ (rp : Row → Except PyExc (Option SpeedEvent)) (st : ParserState) (idx : Nat)
        (row : Row) (ex : PyExc), rp row = .error ex →
      parseStep rp st (idx, row) =
        { st with
            errors := st.errors ++
              [{ row_index := idx, event_id := safe_get row ("eventid"),
                 error := ex.msg, error_type := ex.ename }]
            skipped_count := st.skipped_count + 1 }) ∧
    (∀ rows : List Row,
      (parseStream rows).yielded.length = (parseStream rows).parsed_count ∧
      (parseStream rows).parsed_count + (parseStream rows).skipped_count = rows.length) := by
  refine ⟨?_, ?_, ?_, ?_⟩
  · intro rp rows n
    obtain ⟨hy, hp, hs, _⟩ := parseLoop_spec rp (rows.take n) 0 {}
    constructor
    · rw [hy, hp]
      simp
    · rw [hp, hs]
      have := filterMap_rowParsed_length rp (rows.take n)
      simp only [ParserState.parsed_count, ParserState.skipped_count]
      omega
  · intro rp st idx row
    unfold parseStep
    cases hr : rp row with
    | ok o => cases o <;> simp <;> omega
    | error ex => simp; omega
  · intro rp st idx row ex hr
    unfold parseStep
    rw [hr]
  · intro rows
    obtain ⟨hy, hp, hs, _⟩ := parseLoop_spec (fun r => .ok (parse_row r)) rows 0 {}
    constructor
    · show (parseLoop _ 0 rows {}).yielded.length = (parseLoop _ 0 rows {}).parsed_count
      rw [hy, hp]
      simp
    · show (parseLoop _ 0 rows {}).parsed_count + (parseLoop _ 0 rows {}).skipped_count =
        rows.length
      rw [hp, hs]
      have := filterMap_rowParsed_length (fun r => .ok (parse_row r)) rows
      simp only [ParserState.parsed_count, ParserState.skipped_count]
      omega

/-- C9 witness: the theorem applied to a concrete raising row parser, a
concrete loop state and a concrete prefix. -/
theorem C9_parse_loop_invariants_witness :
    ((fun _ : Row => (.error ⟨"ValueError", "bad"⟩ : Except PyExc (Option SpeedEvent)))
        [("eventid", some "EID9")] = .error ⟨"ValueError", "bad"⟩) ∧
    parseStep (fun _ => .error ⟨"ValueError", "bad"⟩) {} (0, [("eventid", some "EID9")]) =
      { errors :=
          [{ row_index := 0, event_id := safe_get [("eventid", some "EID9")] ("eventid"),
             error := "bad", error_type := "ValueError" }]
        skipped_count := 1 } ∧
    (parseStream [[("eventid", some "EID9")]]).yielded.length =
      (parseStream [[("eventid", some "EID9")]]).parsed_count :=
  ⟨rfl,
    C9_parse_loop_invariants.2.2.1 (fun _ => .error ⟨"ValueError", "bad"⟩) {} 0
      [("eventid", some "EID9")] ⟨"ValueError", "bad"⟩ rfl,
    (C9_parse_loop_invariants.2.2.2 [[("eventid", some "EID9")]]).1⟩

/-- C6: a row whose identifier is missing after sentinel normalisation
yields no Event, a row with a truthy identifier yields exactly one Event
carrying it, and across a run the yielded events are exactly the
per-row results while `parsed_count` counts them and `skipped_count`
counts the others. -/
theorem C6_parser_missing_id (rows : List Row) :
    ((parseStream rows).yielded = rows.filterMap parse_row) ∧
    ((parseStream rows).parsed_count = (rows.filterMap parse_row).length) ∧
    ((parseStream rows).skipped_count = rows.countP (fun r => (parse_row r).isNone)) ∧
    (∀ row : Row, strTruthy (safe_get row ("eventid")) = false → parse_row row = none) ∧
    (∀ (row : Row) (s : String), safe_get row ("eventid") = some s → s ≠ "" →
      ∃ e, parse_row row = some e ∧ e.event_id = s) := by
  obtain ⟨hy, hp, hs, _⟩ := parseLoop_spec (fun r => .ok (parse_row r)) rows 0 {}
  have hpf : rows.filterMap (rowParsed (fun r => .ok (parse_row r))) =
      rows.filterMap parse_row :=
    List.filterMap_congr (fun r _ => rowParsed_total r)
  have hsk : rows.countP (rowSkipped (fun r => .ok (parse_row r))) =
      rows.countP (fun r => (parse_row r).isNone) :=
    List.countP_congr (fun r _ => by rw [rowSkipped_total])
  refine ⟨?_, ?_, ?_, ?_, ?_⟩
  · show (parseLoop _ 0 rows {}).yielded = _
    rw [hy, hpf]
    simp
  · show (parseLoop _ 0 rows {}).parsed_count = _
    rw [hp, hpf]
    simp
  · show (parseLoop _ 0 rows {}).skipped_count = _
    rw [hs, hsk]
    simp
  · intro row hfalse
    unfold parse_row
    cases hg : safe_get row ("eventid") with
    | none => rfl
    | some s =>
      rw [hg] at hfalse
      have : s = "" := by simpa [strTruthy] using hfalse
      simp [this]
  · intro row s hg hs
    unfold parse_row
    rw [hg]
    simp only [hs, if_false]
    exact ⟨_, rfl, rfl⟩

/-- Concrete rows for the C6 witness. -/
def C6_row1 : Row := [("eventid", some "EID1"), ("year", some "1950")]

/-- Concrete sentinel-id row for the C6 witness. -/
def C6_rowM : Row := [("eventid", some "."), ("year", some "1950")]

/-- C6 witness: the theorem applied to a concrete two-row stream with one
valid and one sentinel identifier. -/
theorem C6_parser_missing_id_witness :
    (strTruthy (safe_get C6_rowM ("eventid")) = false) ∧
    parse_row C6_rowM = none ∧
    (safe_get C6_row1 ("eventid") = some "EID1") ∧
    (∃ e, parse_row C6_row1 = some e ∧ e.event_id = "EID1") ∧
    (parseStream [C6_row1, C6_rowM]).parsed_count =
      ([C6_row1, C6_rowM].filterMap parse_row).length :=
  ⟨by decide,
    (C6_parser_missing_id []).2.2.2.1 C6_rowM (by decide),
    by decide,
    (C6_parser_missing_id []).2.2.2.2 C6_row1 "EID1" (by decide) (by decide),
    (C6_parser_missing_id [C6_row1, C6_rowM]).2.1⟩

/-! ### Structural lemmas about the loader's statements -/

/-- Matching test of a role edge by endpoints and type (ignores attrs). -/
def edgeMatch (eid aid rt : String) (r : RoleEdge) : Bool :=
  r.eventId = eid && r.actorId = aid && r.relType = rt

lemma mergeActor_events (g : Graph) (aid n : String) (c : Option String) (iG : Bool) :
    (mergeActor g aid n c iG).events = g.events := by
  unfold mergeActor
  split <;> rfl

lemma mergeActor_locations (g : Graph) (aid n : String) (c : Option String) (iG : Bool) :
    (mergeActor g aid n c iG).locations = g.locations := by
  unfold mergeActor
  split <;> rfl

lemma mergeActor_roleEdges (g : Graph) (aid n : String) (c : Option String) (iG : Bool) :
    (mergeActor g aid n c iG).roleEdges = g.roleEdges := by
  unfold mergeActor
  split <;> rfl

lemma mergeRoleEdge_events (g : Graph) (eid aid rt : String) (attrs : List (String × NVal)) :
    (mergeRoleEdge g eid aid rt attrs).events = g.events := by
  unfold mergeRoleEdge
  split <;> rfl

lemma mergeRoleEdge_actors (g : Graph) (eid aid rt : String) (attrs : List (String × NVal)) :
    (mergeRoleEdge g eid aid rt attrs).actors = g.actors := by
  unfold mergeRoleEdge
  split <;> rfl

lemma mergeRoleEdge_locations (g : Graph) (eid aid rt : String) (attrs : List (String × NVal)) :
    (mergeRoleEdge g eid aid rt attrs).locations = g.locations := by
  unfold mergeRoleEdge
  split <;> rfl

lemma hasEvent_congr {x y : Graph} (h : x.events = y.events) (eid : String) :
    hasEvent x eid = hasEvent y eid := by
  unfold hasEvent
  rw [h]

lemma hasActor_congr {x y : Graph} (h : x.actors = y.actors) (aid : String) :
    hasActor x aid = hasActor y aid := by
  unfold hasActor
  rw [h]

lemma actorRoleStep_events (g : Graph) (eid : String) (aOpt : Option PyActor)
    (rt : String) (mk : PyActor → List (String × NVal)) :
    (actorRoleStep g eid aOpt rt mk).events = g.events := by
  unfold actorRoleStep
  cases aOpt with
  | none => rfl
  | some a =>
    dsimp only
    split
    · rfl
    · split
      · rw [mergeRoleEdge_events, mergeActor_events]
      · rw [mergeActor_events]

lemma actorRoleStep_locations (g : Graph) (eid : String) (aOpt : Option PyActor)
    (rt : String) (mk : PyActor → List (String × NVal)) :
    (actorRoleStep g eid aOpt rt mk).locations = g.locations := by
  unfold actorRoleStep
  cases aOpt with
  | none => rfl
  | some a =>
    dsimp only
    split
    · rfl
    · split
      · rw [mergeRoleEdge_locations, mergeActor_locations]
      · rw [mergeActor_locations]

lemma create_actor_relationships_events (g : Graph) (e : SpeedEvent) :
    (create_actor_relationships g e).events = g.events := by
  unfold create_actor_relationships
  rw [actorRoleStep_events, actorRoleStep_events, actorRoleStep_events]

lemma create_actor_relationships_locations (g : Graph) (e : SpeedEvent) :
    (create_actor_relationships g e).locations = g.locations := by
  unfold create_actor_relationships
  rw [actorRoleStep_locations, actorRoleStep_locations, actorRoleStep_locations]

lemma mergeLocation_events (g : Graph) (lid : String) (loc : PyLocation) :
    (mergeLocation g lid loc).events = g.events := by
  unfold mergeLocation
  split <;> rfl

lemma mergeLocation_actors (g : Graph) (lid : String) (loc : PyLocation) :
    (mergeLocation g lid loc).actors = g.actors := by
  unfold mergeLocation
  split <;> rfl

lemma mergeLocation_roleEdges (g : Graph) (lid : String) (loc : PyLocation) :
    (mergeLocation g lid loc).roleEdges = g.roleEdges := by
  unfold mergeLocation
  split <;> rfl

lemma mergeOccEdge_events (g : Graph) (eid lid : String) :
    (mergeOccEdge g eid lid).events = g.events := by
  unfold mergeOccEdge
  split <;> rfl

lemma mergeOccEdge_actors (g : Graph) (eid lid : String) :
    (mergeOccEdge g eid lid).actors = g.actors := by
  unfold mergeOccEdge
  split <;> rfl

lemma mergeOccEdge_roleEdges (g : Graph) (eid lid : String) :
    (mergeOccEdge g eid lid).roleEdges = g.roleEdges := by
  unfold mergeOccEdge
  split <;> rfl

lemma create_location_relationship_events (g : Graph) (e : SpeedEvent) :
    (create_location_relationship g e).events = g.events := by
  unfold create_location_relationship
  cases e.location with
  | none => rfl
  | some loc =>
    dsimp only
    split
    · rfl
    · split
      · rw [mergeOccEdge_events, mergeLocation_events]
      · rw [mergeLocation_events]

lemma create_location_relationship_actors (g : Graph) (e : SpeedEvent) :
    (create_location_relationship g e).actors = g.actors := by
  unfold create_location_relationship
  cases e.location with
  | none => rfl
  | some loc =>
    dsimp only
    split
    · rfl
    · split
      · rw [mergeOccEdge_actors, mergeLocation_actors]
      · rw [mergeLocation_actors]

lemma create_location_relationship_roleEdges (g : Graph) (e : SpeedEvent) :
    (create_location_relationship g e).roleEdges = g.roleEdges := by
  unfold create_location_relationship
  cases e.location with
  | none => rfl
  | some loc =>
    dsimp only
    split
    · rfl
    · split
      · rw [mergeOccEdge_roleEdges, mergeLocation_roleEdges]
      · rw [mergeLocation_roleEdges]

lemma link_event_type_events (g : Graph) (e : SpeedEvent) :
    (link_event_type g e).events = g.events := by
  unfold link_event_type
  cases e.event_type with
  | none => rfl
  | some t =>
    dsimp only
    split
    · rfl
    · split
      · split
        · split <;> rfl
        · rfl
      · rfl

lemma link_event_type_actors (g : Graph) (e : SpeedEvent) :
    (link_event_type g e).actors = g.actors := by
  unfold link_event_type
  cases e.event_type with
  | none => rfl
  | some t =>
    dsimp only
    split
    · rfl
    · split
      · split
        · split <;> rfl
        · rfl
      · rfl

lemma link_event_type_locations (g : Graph) (e : SpeedEvent) :
    (link_event_type g e).locations = g.locations := by
  unfold link_event_type
  cases e.event_type with
  | none => rfl
  | some t =>
    dsimp only
    split
    · rfl
    · split
      · split
        · split <;> rfl
        · rfl
      · rfl

lemma link_event_type_roleEdges (g : Graph) (e : SpeedEvent) :
    (link_event_type g e).roleEdges = g.roleEdges := by
  unfold link_event_type
  cases e.event_type with
  | none => rfl
  | some t =>
    dsimp only
    split
    · rfl
    · split
      · split
        · split <;> rfl
        · rfl
      · rfl

/-! ### Merge semantics of the actor statements -/

lemma mergeActor_mem {g : Graph} (aid n : String) (c : Option String) (iG : Bool) :
    ∀ a ∈ g.actors, a ∈ (mergeActor g aid n c iG).actors := by
  intro a ha
  unfold mergeActor
  split
  · exact ha
  · exact List.mem_append_left _ ha

lemma hasActor_mergeActor (g : Graph) (aid n : String) (c : Option String) (iG : Bool) :
    hasActor (mergeActor g aid n c iG) aid = true := by
  unfold mergeActor
  by_cases h : hasActor g aid = true
  · rw [if_pos h]
    exact h
  · rw [if_neg h]
    unfold hasActor
    simp

lemma mergeActor_of_has {g : Graph} {aid : String} (n : String) (c : Option String)
    (iG : Bool) (h : hasActor g aid = true) : mergeActor g aid n c iG = g := by
  unfold mergeActor
  rw [if_pos h]

lemma hasActor_mono_mergeActor {g : Graph} {x : String} (aid n : String)
    (c : Option String) (iG : Bool) (h : hasActor g x = true) :
    hasActor (mergeActor g aid n c iG) x = true := by
  unfold hasActor at h ⊢
  rw [List.any_eq_true] at h
  obtain ⟨a, ha, hax⟩ := h
  rw [List.any_eq_true]
  exact ⟨a, mergeActor_mem aid n c iG a ha, hax⟩

lemma mergeRoleEdge_any_self (g : Graph) (eid aid rt : String)
    (attrs : List (String × NVal)) :
    ((mergeRoleEdge g eid aid rt attrs).roleEdges.any (edgeMatch eid aid rt)) = true := by
  unfold mergeRoleEdge edgeMatch
  by_cases h : (g.roleEdges.any fun r => r.eventId = eid && r.actorId = aid && r.relType = rt) = true
  · rw [if_pos h]
    rw [List.any_eq_true] at h ⊢
    obtain ⟨r, hr, hm⟩ := h
    refine ⟨if r.eventId = eid && r.actorId = aid && r.relType = rt then { r with attrs := attrs } else r,
      List.mem_map_of_mem _ hr, ?_⟩
    rw [if_pos hm]
    exact hm
  · rw [if_neg h]
    rw [List.any_eq_true]
    exact ⟨⟨eid, aid, rt, attrs⟩, List.mem_append_right _ (List.mem_singleton.mpr rfl), by simp⟩

lemma mergeRoleEdge_attrs_self (g : Graph) (eid aid rt : String)
    (attrs : List (String × NVal)) :
    ∀ r ∈ (mergeRoleEdge g eid aid rt attrs).roleEdges,
      edgeMatch eid aid rt r = true → r.attrs = attrs := by
  intro r hr hm
  unfold mergeRoleEdge at hr
  by_cases h : (g.roleEdges.any fun r => r.eventId = eid && r.actorId = aid && r.relType = rt) = true
  · rw [if_pos h] at hr
    simp only [List.mem_map] at hr
    obtain ⟨r0, hr0, hf⟩ := hr
    by_cases hm0 : (r0.eventId = eid && r0.actorId = aid && r0.relType = rt) = true
    · rw [if_pos hm0] at hf
      rw [← hf]
    · rw [if_neg hm0] at hf
      subst hf
      exact absurd hm (by simpa [edgeMatch] using hm0)
  · rw [if_neg h] at hr
    rcases List.mem_append.mp hr with hl | hn
    · exfalso
      apply h
      rw [List.any_eq_true]
      exact ⟨r, hl, by simpa [edgeMatch] using hm⟩
    · rw [List.mem_singleton.mp hn]

lemma mergeRoleEdge_preserves_other (g : Graph) (eid2 aid2 rt2 : String)
    (eid aid rt : String) (attrs : List (String × NVal)) (hne : rt2 ≠ rt) :
    ((mergeRoleEdge g eid aid rt attrs).roleEdges.any (edgeMatch eid2 aid2 rt2) =
      g.roleEdges.any (edgeMatch eid2 aid2 rt2)) ∧
    (∀ r ∈ (mergeRoleEdge g eid aid rt attrs).roleEdges,
      edgeMatch eid2 aid2 rt2 r = true → r ∈ g.roleEdges) := by
  unfold mergeRoleEdge
  by_cases h : (g.roleEdges.any fun r => r.eventId = eid && r.actorId = aid && r.relType = rt) = true
  · rw [if_pos h]
    constructor
    · rw [List.any_map]
      congr 1
      funext r
      simp only [Function.comp]
      by_cases hm0 : (r.eventId = eid && r.actorId = aid && r.relType = rt) = true
      · rw [if_pos hm0]
        cases r
        simp [edgeMatch]
      · rw [if_neg hm0]
    · intro r hr hm
      simp only [List.mem_map] at hr
      obtain ⟨r0, hr0, hf⟩ := hr
      by_cases hm0 : (r0.eventId = eid && r0.actorId = aid && r0.relType = rt) = true
      · rw [if_pos hm0] at hf
        subst hf
        simp only [edgeMatch, Bool.and_eq_true, decide_eq_true_eq] at hm hm0
        exact absurd (hm.2.symm.trans hm0.2) hne
      · rw [if_neg hm0] at hf
        subst hf
        exact hr0
  · rw [if_neg h]
    constructor
    · rw [List.any_append]
      have : ([⟨eid, aid, rt, attrs⟩] : List RoleEdge).any (edgeMatch eid2 aid2 rt2) = false := by
        simp [edgeMatch]
        intro _ _
        exact fun hc => absurd hc.symm hne
      rw [this, Bool.or_false]
    · intro r hr hm
      rcases List.mem_append.mp hr with hl | hn
      · exact hl
      · rw [List.mem_singleton.mp hn] at hm
        simp only [edgeMatch, Bool.and_eq_true, decide_eq_true_eq] at hm
        exact absurd hm.2.symm hne

/-- All effects of one role block already present in the state. -/
def roleApplied (g : Graph) (eid : String) (aOpt : Option PyActor) (rt : String)
    (mk : PyActor → List (String × NVal)) : Prop :=
  ∀ a, aOpt = some a → strTruthy a.primary_name = true →
    hasActor g (generate_actor_id (a.primary_name.getD "")) = true ∧
    (hasEvent g eid = true →
      (g.roleEdges.any
        (edgeMatch eid (generate_actor_id (a.primary_name.getD "")) rt)) = true ∧
      (∀ r ∈ g.roleEdges,
        edgeMatch eid (generate_actor_id (a.primary_name.getD "")) rt r = true →
        r.attrs = mk a))

lemma actorRoleStep_of_applied {g : Graph} {eid : String} {aOpt : Option PyActor}
    {rt : String} {mk : PyActor → List (String × NVal)}
    (h : roleApplied g eid aOpt rt mk) : actorRoleStep g eid aOpt rt mk = g := by
  unfold actorRoleStep
  cases aOpt with
  | none => rfl
  | some a =>
    dsimp only
    by_cases ht : strTruthy a.primary_name = true
    · rw [if_neg (by rw [ht]; simp)]
      obtain ⟨hact, hedge⟩ := h a rfl ht
      rw [mergeActor_of_has _ _ _ hact]
      by_cases hev : hasEvent g eid = true
      · rw [if_pos hev]
        obtain ⟨hany, hattrs⟩ := hedge hev
        unfold mergeRoleEdge
        rw [if_pos (by simpa [edgeMatch] using hany)]
        have hmapid : g.roleEdges.map (fun r =>
            if r.eventId = eid && r.actorId = generate_actor_id (a.primary_name.getD "") &&
                r.relType = rt then
              { r with attrs := mk a }
            else r) = g.roleEdges.map id := by
          apply List.map_congr_left
          intro r hr
          by_cases hm : (r.eventId = eid &&
              r.actorId = generate_actor_id (a.primary_name.getD "") &&
              r.relType = rt) = true
          · rw [if_pos hm]
            have hat := hattrs r hr (by simpa [edgeMatch] using hm)
            cases r
            simp_all
          · rw [if_neg hm]
            rfl
        rw [hmapid, List.map_id]
      · rw [if_neg hev]
    · have hf : strTruthy a.primary_name = false := by simpa using ht
      rw [if_pos (by rw [hf]; rfl)]

lemma actorRoleStep_applied (g : Graph) (eid : String) (aOpt : Option PyActor)
    (rt : String) (mk : PyActor → List (String × NVal)) :
    roleApplied (actorRoleStep g eid aOpt rt mk) eid aOpt rt mk := by
  intro a ha htr
  subst ha
  unfold actorRoleStep
  dsimp only
  rw [if_neg (by rw [htr]; simp)]
  by_cases hev :
      hasEvent (mergeActor g (generate_actor_id (a.primary_name.getD ""))
        (a.primary_name.getD "") a.identity_group a.is_government) eid = true
  · rw [if_pos hev]
    refine ⟨?_, fun _ => ⟨mergeRoleEdge_any_self _ _ _ _ _, mergeRoleEdge_attrs_self _ _ _ _ _⟩⟩
    rw [hasActor_congr (mergeRoleEdge_actors _ _ _ _ _)]
    exact hasActor_mergeActor _ _ _ _ _
  · rw [if_neg hev]
    refine ⟨hasActor_mergeActor _ _ _ _ _, fun hev2 => absurd hev2 ?_⟩
    rwa [hasEvent_congr (mergeActor_events _ _ _ _ _), ←
      hasEvent_congr (mergeActor_events g (generate_actor_id (a.primary_name.getD ""))
        (a.primary_name.getD "") a.identity_group a.is_government)] at hev

lemma actorRoleStep_preserves_applied {g : Graph} {eid : String} {aOpt : Option PyActor}
    {rt : String} {mk : PyActor → List (String × NVal)}
    (h : roleApplied g eid aOpt rt mk)
    (eid2 : String) (aOpt2 : Option PyActor) (rt2 : String)
    (mk2 : PyActor → List (String × NVal)) (hne : rt ≠ rt2) :
    roleApplied (actorRoleStep g eid2 aOpt2 rt2 mk2) eid aOpt rt mk := by
  intro a ha htr
  obtain ⟨hact, hedge⟩ := h a ha htr
  unfold actorRoleStep
  cases aOpt2 with
  | none => exact ⟨hact, hedge⟩
  | some a2 =>
    dsimp only
    by_cases ht2 : strTruthy a2.primary_name = true
    · rw [if_neg (by rw [ht2]; simp)]
      set aid2 := generate_actor_id (a2.primary_name.getD "") with haid2
      set g1 := mergeActor g aid2 (a2.primary_name.getD "") a2.identity_group
        a2.is_government with hg1
      by_cases hev2 : hasEvent g1 eid2 = true
      · rw [if_pos hev2]
        set g2 := mergeRoleEdge g1 eid2 aid2 rt2 (mk2 a2) with hg2
        have hEv : hasEvent g2 eid = hasEvent g eid := by
          rw [hasEvent_congr (mergeRoleEdge_events _ _ _ _ _),
            hasEvent_congr (mergeActor_events _ _ _ _ _)]
        have hpres := mergeRoleEdge_preserves_other g1 eid
          (generate_actor_id (a.primary_name.getD "")) rt eid2 aid2 rt2 (mk2 a2) hne
        constructor
        · rw [hasActor_congr (mergeRoleEdge_actors _ _ _ _ _)]
          exact hasActor_mono_mergeActor _ _ _ _ hact
        · intro hev
          rw [hEv] at hev
          obtain ⟨hany, hattrs⟩ := hedge hev
          constructor
          · rw [hg2, hpres.1]
            have : g1.roleEdges = g.roleEdges := mergeActor_roleEdges _ _ _ _ _
            rw [this]
            exact hany
          · intro r hr hm
            have hrg1 := hpres.2 r (by rw [← hg2]; exact hr) hm
            rw [mergeActor_roleEdges] at hrg1
            exact hattrs r hrg1 hm
      · rw [if_neg hev2]
        refine ⟨hasActor_mono_mergeActor _ _ _ _ hact, fun hev => ?_⟩
        rw [hasEvent_congr (mergeActor_events _ _ _ _ _)] at hev
        obtain ⟨hany, hattrs⟩ := hedge hev
        refine ⟨?_, ?_⟩
        · rw [hg1, mergeActor_roleEdges]
          exact hany
        · intro r hr hm
          rw [hg1, mergeActor_roleEdges] at hr
          exact hattrs r hr hm
    · have hf : strTruthy a2.primary_name = false := by simpa using ht2
      rw [if_pos (by rw [hf]; rfl)]
      exact ⟨hact, hedge⟩

lemma actorRoleStep_actors_mem (g : Graph) (eid : String) (aOpt : Option PyActor)
    (rt : String) (mk : PyActor → List (String × NVal)) :
    ∀ x ∈ g.actors, x ∈ (actorRoleStep g eid aOpt rt mk).actors := by
  intro x hx
  unfold actorRoleStep
  cases aOpt with
  | none => exact hx
  | some a =>
    dsimp only
    split
    · exact hx
    · split
      · rw [mergeRoleEdge_actors]
        exact mergeActor_mem _ _ _ _ x hx
      · exact mergeActor_mem _ _ _ _ x hx

lemma hasActor_mono_actorRoleStep {g : Graph} {x : String} (eid : String)
    (aOpt : Option PyActor) (rt : String) (mk : PyActor → List (String × NVal))
    (h : hasActor g x = true) : hasActor (actorRoleStep g eid aOpt rt mk) x = true := by
  unfold hasActor at h ⊢
  rw [List.any_eq_true] at h
  obtain ⟨a, ha, hax⟩ := h
  rw [List.any_eq_true]
  exact ⟨a, actorRoleStep_actors_mem _ _ _ _ _ a ha, hax⟩

lemma create_actor_relationships_idem (g : Graph) (e : SpeedEvent) :
    create_actor_relationships (create_actor_relationships g e) e =
      create_actor_relationships g e := by
  unfold create_actor_relationships
  set s1 := actorRoleStep g e.event_id e.initiator ("INITIATED_BY") iniEdgeAttrs with hs1
  set s2 := actorRoleStep s1 e.event_id e.target ("TARGETED") tvEdgeAttrs with hs2
  set s3 := actorRoleStep s2 e.event_id e.victim ("VICTIMIZED") tvEdgeAttrs with hs3
  have hA1 : roleApplied s3 e.event_id e.initiator ("INITIATED_BY") iniEdgeAttrs := by
    rw [hs3, hs2]
    exact actorRoleStep_preserves_applied
      (actorRoleStep_preserves_applied (by rw [hs1]; exact actorRoleStep_applied _ _ _ _ _)
        _ _ _ _ (by decide)) _ _ _ _ (by decide)
  have hA2 : roleApplied s3 e.event_id e.target ("TARGETED") tvEdgeAttrs := by
    rw [hs3]
    exact actorRoleStep_preserves_applied (by rw [hs2]; exact actorRoleStep_applied _ _ _ _ _)
      _ _ _ _ (by decide)
  have hA3 : roleApplied s3 e.event_id e.victim ("VICTIMIZED") tvEdgeAttrs := by
    rw [hs3]
    exact actorRoleStep_applied _ _ _ _ _
  rw [actorRoleStep_of_applied hA1, actorRoleStep_of_applied hA2,
    actorRoleStep_of_applied hA3]

/-! ### C3: role edges are merged, not created -/

/-- Concrete event with one initiator for the C3 counterexample. -/
def C3_event : SpeedEvent :=
  { event_id := "E1", temporal := {},
    initiator := some { role := .initiator, identity_group := some "Rebels" } }

/-- Graph after Pass 1 loaded the C3 event once. -/
def C3_loaded : Graph := (load_event_batch {} [C3_event]).1

/-- C3 counterexample: the role statements use MERGE on the edge, so
repeating Pass 1's actor statements for an Event whose node survived
leaves the store unchanged — the INITIATED_BY edge count stays at one
instead of doubling as the claim's "creates — does not merge" predicts. -/
theorem C3_counterexample :
    C3_loaded.roleEdges.length = 1 ∧
    create_actor_relationships C3_loaded C3_event = C3_loaded ∧
    (create_actor_relationships C3_loaded C3_event).roleEdges.length = 1 := by
  refine ⟨by decide, ?_, by decide⟩
  decide

/-- C3 amended: for every Event and present actor role with a truthy
primary name, the loader upserts the canonical Actor node by hashed id
(existing nodes are never modified or removed) and MERGEs the
role-specific edge by endpoints and type (overwriting its attributes), so
repeating Pass 1's actor statements is idempotent and cannot duplicate a
role edge. -/
theorem C3_amended_role_edges :
    (∀ (g : Graph) (e : SpeedEvent), ∀ a ∈ g.actors,
      a ∈ (create_actor_relationships g e).actors) ∧
    (∀ (g : Graph) (e : SpeedEvent) (a : PyActor),
      e.initiator = some a → strTruthy a.primary_name = true →
      hasActor (create_actor_relationships g e)
        (generate_actor_id (a.primary_name.getD "")) = true) ∧
    (∀ (g : Graph) (e : SpeedEvent),
      create_actor_relationships (create_actor_relationships g e) e =
        create_actor_relationships g e) := by
  refine ⟨?_, ?_, create_actor_relationships_idem⟩
  · intro g e a ha
    unfold create_actor_relationships
    exact actorRoleStep_actors_mem _ _ _ _ _ _
      (actorRoleStep_actors_mem _ _ _ _ _ _ (actorRoleStep_actors_mem _ _ _ _ _ a ha))
  · intro g e a ha htr
    unfold create_actor_relationships
    apply hasActor_mono_actorRoleStep
    apply hasActor_mono_actorRoleStep
    have := (actorRoleStep_applied g e.event_id e.initiator ("INITIATED_BY")
      iniEdgeAttrs) a ha htr
    exact this.1

/-- C3 witness: the amended theorem applied at the concrete Rebels
event loaded into the empty store. -/
theorem C3_amended_role_edges_witness :
    (C3_event.initiator = some { role := .initiator, identity_group := some "Rebels" }) ∧
    strTruthy (PyActor.primary_name { role := .initiator, identity_group := some "Rebels" }) =
      true ∧
    hasActor (create_actor_relationships {} C3_event)
      (generate_actor_id
        ((PyActor.primary_name { role := .initiator, identity_group := some "Rebels" }).getD
          "")) = true ∧
    create_actor_relationships (create_actor_relationships {} C3_event) C3_event =
      create_actor_relationships {} C3_event :=
  ⟨rfl, by decide,
    C3_amended_role_edges.2.1 {} C3_event _ rfl (by decide),
    C3_amended_role_edges.2.2 {} C3_event⟩

/-! ### C1: Pass 2 linkage resolution -/

/-- Source row of a linked event carrying a FROM_EID. -/
def C1_row1 : Row :=
  [("eventid", some "EID1"), ("linked", some "1"), ("FROM_EID", some "EID2")]

/-- Source row of the referenced event. -/
def C1_row2 : Row := [("eventid", some "EID2")]

/-- C1: the parser yields EID1 with `is_linked` true and linkage list
[EID2], Pass 1 loads both events without error, yet Pass 2 completes
without creating any LINKED_TO edge: it reads the `properties` property,
which Pass 1 never writes (sparse properties go to `propertiesJson`, and
FROM_EID/TO_EID are not among the stored sparse fields at all), so both
linkage lookups miss and the store keeps zero linkage edges — against the
claim that a linkage edge exists after Pass 2. -/
theorem C1_pass2_creates_no_links :
    ((parseStream [C1_row1, C1_row2]).yielded.map
        (fun e => (e.event_id, e.is_linked, e.linked_from, e.linked_to))) =
      [("EID1", true, ["EID2"], []), ("EID2", false, [], [])] ∧
    (load_event_batch {} (parseStream [C1_row1, C1_row2]).yielded).2 = [] ∧
    hasEvent (load_event_batch {} (parseStream [C1_row1, C1_row2]).yielded).1 "EID1" =
      true ∧
    hasEvent (load_event_batch {} (parseStream [C1_row1, C1_row2]).yielded).1 "EID2" =
      true ∧
    lookupAttr ((load_event_batch {} (parseStream [C1_row1, C1_row2]).yielded).1.events.map
        EventNode.attrs).join ("properties") = none ∧
    (create_event_links
        (load_event_batch {} (parseStream [C1_row1, C1_row2]).yielded).1).toOption =
      some (load_event_batch {} (parseStream [C1_row1, C1_row2]).yielded).1 ∧
    ((load_event_batch {} (parseStream [C1_row1, C1_row2]).yielded).1).linkEdges = [] :=
  ⟨by decide, by decide, by decide, by decide, by decide, by decide, by decide⟩

/-! ### Lemmas for the double-load claim -/

/-- Store well-formedness: node ids unique per label, as the uniqueness
constraints of `create_schema` guarantee. -/
def WF (g : Graph) : Prop :=
  (g.events.map EventNode.eventId).Nodup ∧
  (g.actors.map ActorNode.actorId).Nodup ∧
  (g.locations.map LocationNode.locationId).Nodup

/-- The dedup key `_create_location_relationship` derives for a location. -/
def locKey (loc : PyLocation) : String :=
  generate_location_id ((pyOrStr loc.name loc.country).getD "") loc.latitude loc.longitude

/-- One of the three role slots of an event. -/
def usesActor (e : SpeedEvent) (a : PyActor) : Prop :=
  e.initiator = some a ∨ e.target = some a ∨ e.victim = some a

/-- The uniqueness-violation message `_create_event_node` raises. -/
def constraintMsg (eid : String) : String :=
  "ConstraintError: Event.eventId already exists: " ++ eid

lemma create_event_node_of_has {g : Graph} {e : SpeedEvent}
    (h : hasEvent g e.event_id = true) :
    create_event_node g e = .error (constraintMsg e.event_id) := by
  unfold create_event_node constraintMsg
  rw [if_pos h]

lemma create_event_node_of_fresh {g : Graph} {e : SpeedEvent}
    (h : hasEvent g e.event_id = false) :
    create_event_node g e =
      .ok { g with events := g.events ++ [{ eventId := e.event_id, attrs := mkEventAttrs e }] } := by
  unfold create_event_node
  rw [if_neg (by rw [h]; simp)]

lemma hasEvent_append_self (g : Graph) (e : SpeedEvent) :
    hasEvent { g with events := g.events ++ [{ eventId := e.event_id, attrs := mkEventAttrs e }] }
      e.event_id = true := by
  unfold hasEvent
  simp

lemma hasEvent_append (g : Graph) (e : SpeedEvent) (x : String) :
    hasEvent { g with events := g.events ++ [{ eventId := e.event_id, attrs := mkEventAttrs e }] } x =
      (hasEvent g x || (e.event_id = x)) := by
  unfold hasEvent
  simp [List.any_append]

lemma hasEvent_after_rest (g : Graph) (e : SpeedEvent) (x : String) :
    hasEvent (link_event_type (create_location_relationship
      (create_actor_relationships g e) e) e) x = hasEvent g x := by
  rw [hasEvent_congr (link_event_type_events _ _),
    hasEvent_congr (create_location_relationship_events _ _),
    hasEvent_congr (create_actor_relationships_events _ _)]

lemma load_event_batch_hasEvent_mono (batch : List SpeedEvent) :
    ∀ (g : Graph) (x : String), hasEvent g x = true →
      hasEvent (load_event_batch g batch).1 x = true := by
  induction batch with
  | nil => intro g x h; exact h
  | cons e rest ih =>
    intro g x h
    unfold load_event_batch
    cases hc : hasEvent g e.event_id with
    | true =>
      rw [create_event_node_of_has hc]
      exact ih g x h
    | false =>
      rw [create_event_node_of_fresh hc]
      apply ih
      rw [hasEvent_after_rest, hasEvent_append, h]
      rfl

lemma load_event_batch_all_present (batch : List SpeedEvent) :
    ∀ (g : Graph), ∀ e ∈ batch, hasEvent (load_event_batch g batch).1 e.event_id = true := by
  induction batch with
  | nil => intro g e he; exact absurd he (List.not_mem_nil e)
  | cons e0 rest ih =>
    intro g e he
    unfold load_event_batch
    cases hc : hasEvent g e0.event_id with
    | true =>
      rw [create_event_node_of_has hc]
      rcases List.mem_cons.mp he with rfl | hr
      · exact load_event_batch_hasEvent_mono rest g e.event_id hc
      · exact ih g e hr
    | false =>
      rw [create_event_node_of_fresh hc]
      rcases List.mem_cons.mp he with rfl | hr
      · apply load_event_batch_hasEvent_mono
        rw [hasEvent_after_rest]
        exact hasEvent_append_self g e
      · exact ih _ e hr

lemma load_event_batch_of_present (batch : List SpeedEvent) :
    ∀ (g : Graph), (∀ e ∈ batch, hasEvent g e.event_id = true) →
      load_event_batch g batch =
        (g, batch.map (fun e => { event_id := e.event_id, error := constraintMsg e.event_id })) := by
  induction batch with
  | nil => intro g _; rfl
  | cons e rest ih =>
    intro g h
    unfold load_event_batch
    rw [create_event_node_of_has (h e (List.mem_cons_self e rest))]
    rw [ih g (fun e' he' => h e' (List.mem_cons_of_mem e he'))]
    rfl

lemma not_mem_of_hasActor_false {g : Graph} {aid : String}
    (h : ¬ hasActor g aid = true) : aid ∉ g.actors.map ActorNode.actorId := by
  intro hm
  apply h
  rw [List.mem_map] at hm
  obtain ⟨a, ha, hax⟩ := hm
  unfold hasActor
  rw [List.any_eq_true]
  exact ⟨a, ha, by simp [hax]⟩

lemma not_mem_of_hasLocation_false {g : Graph} {lid : String}
    (h : ¬ hasLocation g lid = true) : lid ∉ g.locations.map LocationNode.locationId := by
  intro hm
  apply h
  rw [List.mem_map] at hm
  obtain ⟨a, ha, hax⟩ := hm
  unfold hasLocation
  rw [List.any_eq_true]
  exact ⟨a, ha, by simp [hax]⟩

lemma not_mem_of_hasEvent_false {g : Graph} {eid : String}
    (h : hasEvent g eid = false) : eid ∉ g.events.map EventNode.eventId := by
  intro hm
  rw [List.mem_map] at hm
  obtain ⟨a, ha, hax⟩ := hm
  have : hasEvent g eid = true := by
    unfold hasEvent
    rw [List.any_eq_true]
    exact ⟨a, ha, by simp [hax]⟩
  rw [h] at this
  exact Bool.false_ne_true this

lemma mergeActor_actors_nodup {g : Graph} (aid n : String) (c : Option String) (iG : Bool)
    (h : (g.actors.map ActorNode.actorId).Nodup) :
    ((mergeActor g aid n c iG).actors.map ActorNode.actorId).Nodup := by
  unfold mergeActor
  by_cases hh : hasActor g aid = true
  · rw [if_pos hh]
    exact h
  · rw [if_neg hh]
    dsimp only
    rw [List.map_append]
    refine List.Nodup.append h (by simp) ?_
    intro x hx1 hx2
    simp only [List.map_cons, List.map_nil, List.mem_singleton] at hx2
    subst hx2
    exact not_mem_of_hasActor_false hh hx1

lemma actorRoleStep_actors_nodup {g : Graph} (eid : String) (aOpt : Option PyActor)
    (rt : String) (mk : PyActor → List (String × NVal))
    (h : (g.actors.map ActorNode.actorId).Nodup) :
    ((actorRoleStep g eid aOpt rt mk).actors.map ActorNode.actorId).Nodup := by
  unfold actorRoleStep
  cases aOpt with
  | none => exact h
  | some a =>
    dsimp only
    split
    · exact h
    · split
      · rw [mergeRoleEdge_actors]
        exact mergeActor_actors_nodup _ _ _ _ h
      · exact mergeActor_actors_nodup _ _ _ _ h

lemma mergeLocation_locations_nodup {g : Graph} (lid : String) (loc : PyLocation)
    (h : (g.locations.map LocationNode.locationId).Nodup) :
    ((mergeLocation g lid loc).locations.map LocationNode.locationId).Nodup := by
  unfold mergeLocation
  by_cases hh : hasLocation g lid = true
  · rw [if_pos hh]
    exact h
  · rw [if_neg hh]
    dsimp only
    rw [List.map_append]
    refine List.Nodup.append h (by simp) ?_
    intro x hx1 hx2
    simp only [List.map_cons, List.map_nil, List.mem_singleton] at hx2
    subst hx2
    exact not_mem_of_hasLocation_false hh hx1

lemma create_location_relationship_locations_nodup {g : Graph} (e : SpeedEvent)
    (h : (g.locations.map LocationNode.locationId).Nodup) :
    ((create_location_relationship g e).locations.map LocationNode.locationId).Nodup := by
  unfold create_location_relationship
  cases e.location with
  | none => exact h
  | some loc =>
    dsimp only
    split
    · exact h
    · split
      · rw [mergeOccEdge_locations]
        exact mergeLocation_locations_nodup _ _ h
      · exact mergeLocation_locations_nodup _ _ h

lemma WF_after_ok_step {g : Graph} (e : SpeedEvent) (hWF : WF g)
    (hc : hasEvent g e.event_id = false) :
    WF (link_event_type (create_location_relationship (create_actor_relationships
      { g with events := g.events ++ [{ eventId := e.event_id, attrs := mkEventAttrs e }] } e) e) e) := by
  obtain ⟨hev, hac, hlo⟩ := hWF
  refine ⟨?_, ?_, ?_⟩
  · rw [link_event_type_events, create_location_relationship_events,
      create_actor_relationships_events]
    dsimp only
    rw [List.map_append]
    refine List.Nodup.append hev (by simp) ?_
    intro x hx1 hx2
    simp only [List.map_cons, List.map_nil, List.mem_singleton] at hx2
    subst hx2
    exact not_mem_of_hasEvent_false hc hx1
  · rw [link_event_type_actors, create_location_relationship_actors]
    unfold create_actor_relationships
    exact actorRoleStep_actors_nodup _ _ _ _
      (actorRoleStep_actors_nodup _ _ _ _ (actorRoleStep_actors_nodup _ _ _ _ hac))
  · rw [link_event_type_locations]
    apply create_location_relationship_locations_nodup
    rw [create_actor_relationships_locations]
    exact hlo

lemma load_event_batch_WF (batch : List SpeedEvent) :
    ∀ g : Graph, WF g → WF (load_event_batch g batch).1 := by
  induction batch with
  | nil => intro g h; exact h
  | cons e rest ih =>
    intro g h
    unfold load_event_batch
    cases hc : hasEvent g e.event_id with
    | true =>
      rw [create_event_node_of_has hc]
      exact ih g h
    | false =>
      rw [create_event_node_of_fresh hc]
      exact ih _ (WF_after_ok_step e h hc)

lemma hasActor_after_rest (g : Graph) (e : SpeedEvent) (x : String)
    (h : hasActor g x = true) :
    hasActor (link_event_type (create_location_relationship
      (create_actor_relationships g e) e) e) x = true := by
  rw [hasActor_congr (link_event_type_actors _ _),
    hasActor_congr (create_location_relationship_actors _ _)]
  unfold create_actor_relationships
  exact hasActor_mono_actorRoleStep _ _ _ _
    (hasActor_mono_actorRoleStep _ _ _ _ (hasActor_mono_actorRoleStep _ _ _ _ h))

lemma hasActor_create_ok (g : Graph) (e : SpeedEvent) (x : String)
    (h : hasActor g x = true) :
    hasActor { g with events := g.events ++ [{ eventId := e.event_id, attrs := mkEventAttrs e }] }
      x = true := h

lemma load_event_batch_hasActor_mono (batch : List SpeedEvent) :
    ∀ (g : Graph) (x : String), hasActor g x = true →
      hasActor (load_event_batch g batch).1 x = true := by
  induction batch with
  | nil => intro g x h; exact h
  | cons e rest ih =>
    intro g x h
    unfold load_event_batch
    cases hc : hasEvent g e.event_id with
    | true =>
      rw [create_event_node_of_has hc]
      exact ih g x h
    | false =>
      rw [create_event_node_of_fresh hc]
      exact ih _ x (hasActor_after_rest _ e x (hasActor_create_ok g e x h))

lemma hasLocation_mono_mergeLocation {g : Graph} {x : String} (lid : String)
    (loc : PyLocation) (h : hasLocation g x = true) :
    hasLocation (mergeLocation g lid loc) x = true := by
  unfold mergeLocation
  by_cases hh : hasLocation g lid = true
  · rw [if_pos hh]
    exact h
  · rw [if_neg hh]
    unfold hasLocation at h ⊢
    dsimp only
    rw [List.any_append, h]
    rfl

lemma hasLocation_mono_CLR (g : Graph) (e : SpeedEvent) (x : String)
    (h : hasLocation g x = true) :
    hasLocation (create_location_relationship g e) x = true := by
  unfold create_location_relationship
  cases e.location with
  | none => exact h
  | some loc =>
    dsimp only
    split
    · exact h
    · split
      · rw [hasLocation_congr (mergeOccEdge_locations _ _ _)]
        exact hasLocation_mono_mergeLocation _ _ h
      · exact hasLocation_mono_mergeLocation _ _ h

lemma hasLocation_after_rest (g : Graph) (e : SpeedEvent) (x : String)
    (h : hasLocation g x = true) :
    hasLocation (link_event_type (create_location_relationship
      (create_actor_relationships g e) e) e) x = true := by
  rw [hasLocation_congr (link_event_type_locations _ _)]
  apply hasLocation_mono_CLR
  rw [hasLocation_congr (create_actor_relationships_locations _ _)]
  exact h

lemma load_event_batch_hasLocation_mono (batch : List SpeedEvent) :
    ∀ (g : Graph) (x : String), hasLocation g x = true →
      hasLocation (load_event_batch g batch).1 x = true := by
  induction batch with
  | nil => intro g x h; exact h
  | cons e rest ih =>
    intro g x h
    unfold load_event_batch
    cases hc : hasEvent g e.event_id with
    | true =>
      rw [create_event_node_of_has hc]
      exact ih g x h
    | false =>
      rw [create_event_node_of_fresh hc]
      exact ih _ x (hasLocation_after_rest _ e x h)

lemma CAR_hasActor {g : Graph} {e : SpeedEvent} {a : PyActor} (hu : usesActor e a)
    (htr : strTruthy a.primary_name = true) :
    hasActor (create_actor_relationships g e)
      (generate_actor_id (a.primary_name.getD "")) = true := by
  unfold create_actor_relationships
  rcases hu with h | h | h
  · apply hasActor_mono_actorRoleStep
    apply hasActor_mono_actorRoleStep
    exact ((actorRoleStep_applied g e.event_id e.initiator ("INITIATED_BY") iniEdgeAttrs)
      a h htr).1
  · apply hasActor_mono_actorRoleStep
    exact ((actorRoleStep_applied _ e.event_id e.target ("TARGETED") tvEdgeAttrs) a h htr).1
  · exact ((actorRoleStep_applied _ e.event_id e.victim ("VICTIMIZED") tvEdgeAttrs) a h htr).1

lemma CLR_hasLocation {g : Graph} {e : SpeedEvent} {loc : PyLocation}
    (hl : e.location = some loc)
    (ht : (strTruthy loc.name || strTruthy loc.country) = true) :
    hasLocation (create_location_relationship g e) (locKey loc) = true := by
  unfold create_location_relationship locKey
  rw [hl]
  dsimp only
  rw [if_neg (by rw [ht]; simp)]
  split
  · rw [hasLocation_congr (mergeOccEdge_locations _ _ _)]
    exact hasLocation_mergeLocation _ _ _
  · exact hasLocation_mergeLocation _ _ _

lemma countP_eq_one_of_nodup_map {α : Type} (f : α → String) (x : String) :
    ∀ l : List α, (l.map f).Nodup → l.any (fun a => f a = x) = true →
      l.countP (fun a => f a = x) = 1 := by
  intro l
  induction l with
  | nil => intro _ hx; simp at hx
  | cons a t ih =>
    intro hnd hx
    rw [List.map_cons, List.nodup_cons] at hnd
    rw [List.countP_cons]
    by_cases hax : f a = x
    · have hz : t.countP (fun b => f b = x) = 0 := by
        rw [List.countP_eq_zero]
        intro b hb hbx
        simp only [decide_eq_true_eq] at hbx
        exact hnd.1 (List.mem_map.mpr ⟨b, hb, by rw [hbx, hax]⟩)
      simp [hz, hax]
    · rw [List.any_cons] at hx
      have hx' : t.any (fun b => f b = x) = true := by
        rcases Bool.or_eq_true_iff.mp hx with h1 | h1
        · exact absurd (by simpa using h1) hax
        · exact h1
      rw [ih hnd.2 hx']
      simp [hax]

lemma load_event_batch_fresh_spec (batch : List SpeedEvent) :
    ∀ g : Graph, (batch.map SpeedEvent.event_id).Nodup →
      (∀ e ∈ batch, hasEvent g e.event_id = false) →
      (load_event_batch g batch).2 = [] ∧
      (∀ x, hasEvent (load_event_batch g batch).1 x =
        (hasEvent g x || batch.any (fun e => e.event_id = x))) ∧
      (∀ e ∈ batch, ∀ a : PyActor, usesActor e a → strTruthy a.primary_name = true →
        hasActor (load_event_batch g batch).1
          (generate_actor_id (a.primary_name.getD "")) = true) ∧
      (∀ e ∈ batch, ∀ loc : PyLocation, e.location = some loc →
        (strTruthy loc.name || strTruthy loc.country) = true →
        hasLocation (load_event_batch g batch).1 (locKey loc) = true) := by
  induction batch with
  | nil =>
    intro g _ _
    refine ⟨rfl, fun x => by simp [load_event_batch], ?_, ?_⟩
    · intro e he
      exact absurd he (List.not_mem_nil e)
    · intro e he
      exact absurd he (List.not_mem_nil e)
  | cons e0 rest ih =>
    intro g hnd hfr
    have hc : hasEvent g e0.event_id = false := hfr e0 (List.mem_cons_self e0 rest)
    have hnd' : (rest.map SpeedEvent.event_id).Nodup ∧
        e0.event_id ∉ rest.map SpeedEvent.event_id := by
      rw [List.map_cons, List.nodup_cons] at hnd
      exact ⟨hnd.2, hnd.1⟩
    unfold load_event_batch
    rw [create_event_node_of_fresh hc]
    have hG4ev : ∀ x,
        hasEvent (link_event_type (create_location_relationship (create_actor_relationships
          { g with events := g.events ++ [{ eventId := e0.event_id, attrs := mkEventAttrs e0 }] }
          e0) e0) e0) x = (hasEvent g x || (e0.event_id = x)) := by
      intro x
      rw [hasEvent_after_rest, hasEvent_append]
    have hrest_fresh : ∀ e ∈ rest,
        hasEvent (link_event_type (create_location_relationship (create_actor_relationships
          { g with events := g.events ++ [{ eventId := e0.event_id, attrs := mkEventAttrs e0 }] }
          e0) e0) e0) e.event_id = false := by
      intro e he
      rw [hG4ev]
      have h1 : hasEvent g e.event_id = false := hfr e (List.mem_cons_of_mem e0 he)
      have h2 : e0.event_id ≠ e.event_id := by
        intro hcq
        exact hnd'.2 (List.mem_map.mpr ⟨e, he, hcq.symm⟩)
      simp [h1, h2]
    obtain ⟨ihE, ihH, ihA, ihL⟩ := ih _ hnd'.1 hrest_fresh
    refine ⟨ihE, ?_, ?_, ?_⟩
    · intro x
      rw [ihH, hG4ev, List.any_cons]
      cases hasEvent g x <;> cases hq : (decide (e0.event_id = x)) <;> simp [hq]
    · intro e he a hu htr
      rcases List.mem_cons.mp he with rfl | hr
      · apply load_event_batch_hasActor_mono
        rw [hasActor_congr (link_event_type_actors _ _),
          hasActor_congr (create_location_relationship_actors _ _)]
        exact CAR_hasActor hu htr
      · exact ihA e hr a hu htr
    · intro e he loc hl ht
      rcases List.mem_cons.mp he with rfl | hr
      · apply load_event_batch_hasLocation_mono
        rw [hasLocation_congr (link_event_type_locations _ _)]
        exact CLR_hasLocation hl ht
      · exact ihL e hr loc hl ht

/-- C2: loading a batch of fresh, distinct Events twice leaves exactly one
Actor node per distinct normalized actor name and one Location node per
distinct location key (the second load changes nothing in the store), and
the second load's plain CREATE of each Event violates the eventId
uniqueness constraint, surfacing one per-Event error per batch Event
instead of silently duplicating the Event node. -/
theorem C2_double_load_idempotent_shared_nodes (g0 : Graph) (batch : List SpeedEvent)
    (hWF : WF g0) (hnd : (batch.map SpeedEvent.event_id).Nodup)
    (hfr : ∀ e ∈ batch, hasEvent g0 e.event_id = false) :
    (load_event_batch g0 batch).2 = [] ∧
    load_event_batch (load_event_batch g0 batch).1 batch =
      ((load_event_batch g0 batch).1,
        batch.map (fun e => { event_id := e.event_id, error := constraintMsg e.event_id })) ∧
    ((load_event_batch (load_event_batch g0 batch).1 batch).1.actors.map
      ActorNode.actorId).Nodup ∧
    ((load_event_batch (load_event_batch g0 batch).1 batch).1.locations.map
      LocationNode.locationId).Nodup ∧
    (∀ e ∈ batch, ∀ a : PyActor, usesActor e a → strTruthy a.primary_name = true →
      (load_event_batch (load_event_batch g0 batch).1 batch).1.actors.countP
        (fun x => x.actorId = generate_actor_id (a.primary_name.getD "")) = 1) ∧
    (∀ e ∈ batch, ∀ loc : PyLocation, e.location = some loc →
      (strTruthy loc.name || strTruthy loc.country) = true →
      (load_event_batch (load_event_batch g0 batch).1 batch).1.locations.countP
        (fun x => x.locationId = locKey loc) = 1) := by
  obtain ⟨hE, hH, hA, hL⟩ := load_event_batch_fresh_spec batch g0 hnd hfr
  have hpres : ∀ e ∈ batch, hasEvent (load_event_batch g0 batch).1 e.event_id = true := by
    intro e he
    rw [hH]
    have : batch.any (fun e' => e'.event_id = e.event_id) = true := by
      rw [List.any_eq_true]
      exact ⟨e, he, by simp⟩
    rw [this]
    simp
  have hsecond := load_event_batch_of_present batch (load_event_batch g0 batch).1 hpres
  have hWF1 : WF (load_event_batch g0 batch).1 := load_event_batch_WF batch g0 hWF
  refine ⟨hE, hsecond, ?_, ?_, ?_, ?_⟩
  · rw [hsecond]
    exact hWF1.2.1
  · rw [hsecond]
    exact hWF1.2.2
  · intro e he a hu htr
    rw [hsecond]
    exact countP_eq_one_of_nodup_map ActorNode.actorId _ _ hWF1.2.1 (hA e he a hu htr)
  · intro e he loc hl ht
    rw [hsecond]
    exact countP_eq_one_of_nodup_map LocationNode.locationId _ _ hWF1.2.2
      (hL e he loc hl ht)

/-- Concrete two-event batch for the C2 witness: distinct ids, a shared
actor name in two spellings and a shared location in two spellings. -/
def C2_batch : List SpeedEvent :=
  [{ event_id := "E1", temporal := {},
     initiator := some { role := .initiator, identity_group := some "Army" },
     location := some { name := some "Paris" } },
   { event_id := "E2", temporal := {},
     initiator := some { role := .initiator, identity_group := some " ARMY " },
     location := some { name := some "PARIS" } }]

/-- C2 witness: the theorem applied to the concrete batch loaded twice
into the empty store. -/
theorem C2_double_load_idempotent_shared_nodes_witness :
    WF ({} : Graph) ∧
    (C2_batch.map SpeedEvent.event_id).Nodup ∧
    (load_event_batch {} C2_batch).2 = [] ∧
    load_event_batch (load_event_batch {} C2_batch).1 C2_batch =
      ((load_event_batch {} C2_batch).1,
        C2_batch.map (fun e => { event_id := e.event_id, error := constraintMsg e.event_id })) ∧
    ((load_event_batch (load_event_batch {} C2_batch).1 C2_batch).1.actors.map
      ActorNode.actorId).Nodup :=
  ⟨⟨List.nodup_nil, List.nodup_nil, List.nodup_nil⟩, by decide,
    (C2_double_load_idempotent_shared_nodes {} C2_batch
      ⟨List.nodup_nil, List.nodup_nil, List.nodup_nil⟩ (by decide) (by decide)).1,
    (C2_double_load_idempotent_shared_nodes {} C2_batch
      ⟨List.nodup_nil, List.nodup_nil, List.nodup_nil⟩ (by decide) (by decide)).2.1,
    (C2_double_load_idempotent_shared_nodes {} C2_batch
      ⟨List.nodup_nil, List.nodup_nil, List.nodup_nil⟩ (by decide) (by decide)).2.2.1⟩

end SpeedKG
